import Mathlib

namespace LibraryProject

/-- Book.status enum from app/models/book.py (a str-enum whose values are
the lowercase strings used in error details). -/

inductive BookStatus where
  | AVAILABLE
  | RESERVED
  | CHECKED_OUT
  | OVERDUE
deriving DecidableEq, Repr

/-- The string value of the str-enum; `book.status.lower()` in the source
returns exactly this value (the values are already lowercase). -/

def BookStatus.value : BookStatus → String
  | .AVAILABLE => "available"
  | .RESERVED => "reserved"
  | .CHECKED_OUT => "checked_out"
  | .OVERDUE => "overdue"

/-- Reservation.status enum from app/models/reservation.py. -/

inductive ReservationStatus where
  | PENDING
  | CONFIRMED
  | CANCELLED
  | ACTIVE
  | COMPLETED
  | EXPIRED
deriving DecidableEq, Repr

/-- A row of the books table (columns of app/models/book.py that the
reservation core reads: id, title, status; the remaining columns are
catalog metadata never consulted by the state machine). -/

structure Book where
  id : Nat
  title : String
  status : BookStatus
deriving DecidableEq, Repr

/-- A row of the reservations table: exactly the mapped columns of
app/models/reservation.py (id, book_id, user_id, status, expires_at;
created_at is a server default never read by the operations modelled
here).  There is no cancelled_by column in the model. -/

structure Reservation where
  id : Nat
  book_id : Nat
  user_id : Nat
  status : ReservationStatus
  expires_at : Option Nat
deriving DecidableEq, Repr

/-- A row of the users table (the columns the reservation core reads). -/

structure User where
  id : Nat
  email : String
  is_blocked : Bool
deriving DecidableEq, Repr

/-- The relational store: the three tables plus the primary-key counter
for reservation inserts. -/

structure LibraryState where
  books : List Book
  reservations : List Reservation
  users : List User
  nextReservationId : Nat
deriving DecidableEq, Repr

/-- What a reservation endpoint returns (schemas.ReservationResponse):
the row together with the cancelled_by attribute, which is read from the
Python object (`from_attributes = True`) and defaults to None.  It is not
a column of the stored model. -/

structure ReservationView where
  row : Reservation
  cancelled_by : Option String
deriving DecidableEq, Repr

/-- An HTTPException: status code and detail. -/

structure ApiError where
  status_code : Nat
  detail : String
deriving DecidableEq, Repr

/-- Loading a reservation afresh from the store (a new ORM instance):
only mapped columns are populated, so cancelled_by is None. -/

def loadReservation (r : Reservation) : ReservationView :=
  { row := r, cancelled_by := none }

/-- Result of one request: the store after the request (HTTPExceptions
raised after a commit keep that commit, see check_and_block_user) and
either the response or the error. -/

inductive OpResult where
  | ok : LibraryState → ReservationView → OpResult
  | err : LibraryState → ApiError → OpResult
deriving DecidableEq, Repr

def OpResult.state : OpResult → LibraryState
  | .ok s _ => s
  | .err s _ => s

def OpResult.isOk : OpResult → Bool
  | .ok _ _ => true
  | .err _ _ => false

def OpResult.view? : OpResult → Option ReservationView
  | .ok _ v => some v
  | .err _ _ => none

def OpResult.error? : OpResult → Option ApiError
  | .ok _ _ => none
  | .err _ e => some e

/-! ### Table lookups and row updates -/

def findBook (s : LibraryState) (bid : Nat) : Option Book :=
  s.books.find? (fun b => b.id == bid)

def findReservation (s : LibraryState) (rid : Nat) : Option Reservation :=
  s.reservations.find? (fun r => r.id == rid)

def findUser (s : LibraryState) (uid : Nat) : Option User :=
  s.users.find? (fun u => u.id == uid)

def mapBookById (s : LibraryState) (bid : Nat) (f : Book → Book) : LibraryState :=
  { s with books := s.books.map (fun b => if b.id == bid then f b else b) }

def mapReservationById (s : LibraryState) (rid : Nat) (f : Reservation → Reservation) :
    LibraryState :=
  { s with reservations := s.reservations.map (fun r => if r.id == rid then f r else r) }

def mapUserById (s : LibraryState) (uid : Nat) (f : User → User) : LibraryState :=
  { s with users := s.users.map (fun u => if u.id == uid then f u else u) }

/-! ### Derived counts -/

/-- A live reservation status (PENDING, CONFIRMED or ACTIVE). -/

def ReservationStatus.isLive : ReservationStatus → Bool
  | .PENDING => true
  | .CONFIRMED => true
  | .ACTIVE => true
  | _ => false

/-- Whether a reservation is a live one referencing the given book. -/

def liveFor (bid : Nat) (r : Reservation) : Bool :=
  r.book_id == bid && r.status.isLive

/-- Number of live reservations referencing a book. -/

def liveCount (s : LibraryState) (bid : Nat) : Nat :=
  s.reservations.countP (liveFor bid)

/-- The borrowing-limit count of create_reservation: reservations of the
user with status PENDING, CONFIRMED, ACTIVE or EXPIRED. -/

def quotaCount (s : LibraryState) (uid : Nat) : Nat :=
  s.reservations.countP (fun r =>
    r.user_id == uid &&
      (r.status == ReservationStatus.PENDING ||
        r.status == ReservationStatus.CONFIRMED ||
        r.status == ReservationStatus.ACTIVE ||
        r.status == ReservationStatus.EXPIRED))

/-- Whether the book referenced by a reservation exists and is OVERDUE
(the inner join of check_and_block_user, and the `if r.book and
r.book.status == OVERDUE` test of the sweep agree on this). -/

def bookIsOverdue (s : LibraryState) (bid : Nat) : Bool :=
  (findBook s bid).any (fun b => b.status == BookStatus.OVERDUE)

/-- Reservations of the user whose book is currently OVERDUE. -/

def overdueLinkedCount (s : LibraryState) (uid : Nat) : Nat :=
  s.reservations.countP (fun r => r.user_id == uid && bookIsOverdue s r.book_id)

/-! ### Endpoint embeddings -/

/-- user_service.check_and_block_user: looks the user up, counts the
reservations of the user joined to OVERDUE books, and if the count is at
least 2 sets is_blocked, commits, and raises 403.  The commit precedes
the raise, so the block persists even though the request fails. -/

def check_and_block_user (s : LibraryState) (uid : Nat) :
    LibraryState × Option ApiError :=
  match findUser s uid with
  | none => (s, some ⟨404, "User not found"⟩)
  | some _ =>
      if overdueLinkedCount s uid ≥ 2 then
        (mapUserById s uid (fun u => { u with is_blocked := true }),
          some ⟨403,
            "You are blocked due to overdue books. Contact the librarian to unblock."⟩)
      else
        (s, none)

/-- general_reservations.create_reservation, including its
get_active_user_id dependency (user must exist and not be blocked),
check_and_block_user, the quota count, the book lookup, the
existing-PENDING/CONFIRMED-reservation check, and the AVAILABLE check;
on success it inserts a PENDING reservation expiring 5 days out and
sets the book RESERVED. -/

def create_reservation (now : Nat) (uid bid : Nat) (s : LibraryState) : OpResult :=
  match findUser s uid with
  | none => .err s ⟨404, "User not found"⟩
  | some u =>
      if u.is_blocked then
        .err s ⟨403, "Your account is blocked and cannot perform this action."⟩
      else
        match check_and_block_user s uid with
        | (s1, some e) => .err s1 e
        | (s1, none) =>
            if quotaCount s1 uid ≥ 3 then
              .err s1 ⟨400,
                "You can have up to 3 active or pending reservations in total. Please complete or cancel an existing one to proceed."⟩
            else
              match findBook s1 bid with
              | none => .err s1 ⟨404, "Book not found"⟩
              | some book =>
                  match s1.reservations.find? (fun r =>
                      r.book_id == book.id &&
                        (r.status == ReservationStatus.PENDING ||
                          r.status == ReservationStatus.CONFIRMED)) with
                  | some _ =>
                      .err s1 ⟨400, "This book is already reserved by another user."⟩
                  | none =>
                      if book.status ≠ BookStatus.AVAILABLE then
                        .err s1 ⟨400,
                          "Book is currently " ++ book.status.value ++
                            " and cannot be reserved."⟩
                      else
                        let newRes : Reservation :=
                          { id := s1.nextReservationId
                            book_id := book.id
                            user_id := uid
                            status := ReservationStatus.PENDING
                            expires_at := some (now + 5 * 86400) }
                        let s2 := mapBookById s1 book.id
                          (fun b => { b with status := BookStatus.RESERVED })
                        let s3 := { s2 with
                          reservations := s2.reservations ++ [newRes]
                          nextReservationId := s2.nextReservationId + 1 }
                        .ok s3 { row := newRes, cancelled_by := none }

/-- librarian_reservations.confirm_reservation_by_librarian: the
reservation must exist and be PENDING, its book must exist and not be
CHECKED_OUT/OVERDUE; then expires_at is set 5 days out and the status
becomes CONFIRMED (the book status is unchanged). -/

def confirm_reservation_by_librarian (now : Nat) (rid : Nat) (s : LibraryState) :
    OpResult :=
  match findReservation s rid with
  | none => .err s ⟨404, "Reservation not found"⟩
  | some r =>
      if r.status ≠ ReservationStatus.PENDING then
        .err s ⟨400, "Reservation is not pending"⟩
      else
        match findBook s r.book_id with
        | none => .err s ⟨404, "Associated book not found"⟩
        | some book =>
            if book.status == BookStatus.CHECKED_OUT ||
                book.status == BookStatus.OVERDUE then
              .err s ⟨400,
                "Book is currently " ++ book.status.value ++
                  " and cannot be reserved."⟩
            else
              let r' := { r with
                expires_at := some (now + 5 * 86400)
                status := ReservationStatus.CONFIRMED }
              .ok (mapReservationById s rid (fun _ => r'))
                { row := r', cancelled_by := none }

/-- librarian_reservations.decline_reservation_by_librarian: the
reservation must exist and its book must exist and not be
CHECKED_OUT/OVERDUE; there is no check on the status of the reservation itself.
The book becomes AVAILABLE, the reservation CANCELLED, and cancelled_by
is assigned on the Python object only (no such column exists), so it
reaches the response but not the store. -/

def decline_reservation_by_librarian (rid : Nat) (s : LibraryState) : OpResult :=
  match findReservation s rid with
  | none => .err s ⟨404, "Reservation not found"⟩
  | some r =>
      match findBook s r.book_id with
      | none => .err s ⟨404, "Associated book not found"⟩
      | some book =>
          if book.status == BookStatus.CHECKED_OUT ||
              book.status == BookStatus.OVERDUE then
            .err s ⟨400,
              "This book is already checked out or overdue and cannot be cancelled. The user must return it first."⟩
          else
            let r' := { r with status := ReservationStatus.CANCELLED }
            let s1 := mapBookById s book.id
              (fun b => { b with status := BookStatus.AVAILABLE })
            .ok (mapReservationById s1 rid (fun _ => r'))
              { row := r', cancelled_by := some "librarian" }

/-- librarian_reservations.confirm_book_checkout_by_librarian: the query
selects by id AND status == CONFIRMED, so an existing reservation in any
other status falls into the same 404 branch as a missing one.  The book
must exist and be RESERVED; then expires_at is set 14 days out, the
reservation becomes ACTIVE and the book CHECKED_OUT. -/

def confirm_book_checkout_by_librarian (now : Nat) (rid : Nat) (s : LibraryState) :
    OpResult :=
  match s.reservations.find? (fun r =>
      r.id == rid && r.status == ReservationStatus.CONFIRMED) with
  | none => .err s ⟨404, "Reservation not found or not eligible for confirmation"⟩
  | some r =>
      match findBook s r.book_id with
      | none => .err s ⟨404, "Associated book not found"⟩
      | some book =>
          if book.status ≠ BookStatus.RESERVED then
            .err s ⟨400,
              "Book is not in \x27reserved\x27 status and cannot be issued."⟩
          else
            let r' := { r with
              expires_at := some (now + 14 * 86400)
              status := ReservationStatus.ACTIVE }
            let s1 := mapBookById s book.id
              (fun b => { b with status := BookStatus.CHECKED_OUT })
            .ok (mapReservationById s1 rid (fun _ => r'))
              { row := r', cancelled_by := none }

/-- librarian_reservations.confirm_book_return_by_librarian: the
reservation must exist and its book must exist and be
CHECKED_OUT/OVERDUE; there is no check on the status of the reservation itself.
The book becomes AVAILABLE and the reservation COMPLETED. -/

def confirm_book_return_by_librarian (rid : Nat) (s : LibraryState) : OpResult :=
  match findReservation s rid with
  | none => .err s ⟨404, "Reservation not found"⟩
  | some r =>
      match findBook s r.book_id with
      | none => .err s ⟨404, "Associated book not found"⟩
      | some book =>
          if book.status == BookStatus.CHECKED_OUT ||
              book.status == BookStatus.OVERDUE then
            let r' := { r with status := ReservationStatus.COMPLETED }
            let s1 := mapBookById s book.id
              (fun b => { b with status := BookStatus.AVAILABLE })
            .ok (mapReservationById s1 rid (fun _ => r'))
              { row := r', cancelled_by := none }
          else
            .err s ⟨400, "This book is not currently checked out or overdue."⟩

/-- user_reservations.decline_reservation_user: the reservation must
exist and belong to the caller, its book must exist and not be
CHECKED_OUT/OVERDUE, and the reservation must be PENDING or CONFIRMED.
The book becomes AVAILABLE, the reservation CANCELLED, and cancelled_by
is assigned on the Python object only. -/

def decline_reservation_user (rid uid : Nat) (s : LibraryState) : OpResult :=
  match findReservation s rid with
  | none => .err s ⟨404, "Reservation not found"⟩
  | some r =>
      if r.user_id ≠ uid then
        .err s ⟨403, "You can only cancel your own reservations"⟩
      else
        match findBook s r.book_id with
        | none => .err s ⟨404, "Associated book not found"⟩
        | some book =>
            if book.status == BookStatus.CHECKED_OUT ||
                book.status == BookStatus.OVERDUE then
              .err s ⟨400,
                "You cannot cancel this reservation because the book has already been taken or is overdue. Please return it instead."⟩
            else
              if !(r.status == ReservationStatus.PENDING ||
                  r.status == ReservationStatus.CONFIRMED) then
                .err s ⟨400, "Only pending or confirmed reservations can be cancelled."⟩
              else
                let r' := { r with status := ReservationStatus.CANCELLED }
                let s1 := mapBookById s book.id
                  (fun b => { b with status := BookStatus.AVAILABLE })
                .ok (mapReservationById s1 rid (fun _ => r'))
                  { row := r', cancelled_by := some "user" }

/-! ### The reconciliation sweep (email_tasks._check_and_cleanup_reservations)

Each pass first materializes its result set (`result.scalars().all()`)
and then mutates each selected row and, for passes 1 and 2, its book;
mutations of one row never alter which other rows were selected, and no
two selected rows are the same row, so each pass is a row-wise map over
the tables.  A selected reservation whose book row is absent (ruled out
by the non-nullable foreign key) contributes no book update, and a
missing user yields an empty e-mail address in the queued event. -/

/-- Notifications queued by the sweep (`.delay(...)` celery calls). -/

inductive SweepEvent where
  | cancellationEmail : String → String → SweepEvent
  | userBlockedEmail : String → SweepEvent
deriving DecidableEq, Repr

/-- `Reservation.expires_at < now` (SQL: NULL compares false). -/

def expiredBefore (now : Nat) (r : Reservation) : Bool :=
  match r.expires_at with
  | some t => t < now
  | none => false

/-- Selection of sweep pass 1: CONFIRMED and past expires_at. -/

def pass1Cond (now : Nat) (r : Reservation) : Bool :=
  expiredBefore now r && r.status == ReservationStatus.CONFIRMED

/-- Selection of sweep pass 2: ACTIVE and past expires_at. -/

def pass2Cond (now : Nat) (r : Reservation) : Bool :=
  expiredBefore now r && r.status == ReservationStatus.ACTIVE

def emailOfUser (s : LibraryState) (uid : Nat) : String :=
  ((findUser s uid).map User.email).getD ""

def titleOfBook (s : LibraryState) (bid : Nat) : String :=
  ((findBook s bid).map Book.title).getD ""

/-- Pass 1 effect on one reservation row. -/

def pass1Row (now : Nat) (r : Reservation) : Reservation :=
  if pass1Cond now r then { r with status := ReservationStatus.CANCELLED } else r

/-- Whether pass 1 selects some reservation of this book. -/

def pass1Hits (now : Nat) (s : LibraryState) (bid : Nat) : Bool :=
  s.reservations.any (fun r => pass1Cond now r && r.book_id == bid)

/-- Pass 1 effect on one book row. -/

def pass1Book (now : Nat) (s : LibraryState) (b : Book) : Book :=
  if pass1Hits now s b.id then { b with status := BookStatus.AVAILABLE } else b

/-- Pass 1 state change: every selected reservation becomes CANCELLED
and its book AVAILABLE (no cancelled_by is assigned anywhere in this
pass). -/

def pass1State (now : Nat) (s : LibraryState) : LibraryState :=
  { s with
    reservations := s.reservations.map (pass1Row now)
    books := s.books.map (pass1Book now s) }

/-- Pass 1 queues one cancellation email per selected reservation. -/

def pass1Events (now : Nat) (s : LibraryState) : List SweepEvent :=
  (s.reservations.filter (pass1Cond now)).map (fun r =>
    SweepEvent.cancellationEmail (emailOfUser s r.user_id) (titleOfBook s r.book_id))

/-- Pass 2 effect on one reservation row. -/

def pass2Row (now : Nat) (r : Reservation) : Reservation :=
  if pass2Cond now r then { r with status := ReservationStatus.EXPIRED } else r

/-- Whether pass 2 selects some reservation of this book. -/

def pass2Hits (now : Nat) (s : LibraryState) (bid : Nat) : Bool :=
  s.reservations.any (fun r => pass2Cond now r && r.book_id == bid)

/-- Pass 2 effect on one book row. -/

def pass2Book (now : Nat) (s : LibraryState) (b : Book) : Book :=
  if pass2Hits now s b.id then { b with status := BookStatus.OVERDUE } else b

/-- Pass 2 state change: every selected reservation becomes EXPIRED and
its book OVERDUE (this pass only logs, no email). -/

def pass2State (now : Nat) (s : LibraryState) : LibraryState :=
  { s with
    reservations := s.reservations.map (pass2Row now)
    books := s.books.map (pass2Book now s) }

/-- Selection of sweep pass 3: at least two reservations of the user on
currently-OVERDUE books, and the user not yet blocked. -/

def pass3Cond (s : LibraryState) (u : User) : Bool :=
  overdueLinkedCount s u.id ≥ 2 && !u.is_blocked

/-- Pass 3 effect on one user row. -/

def pass3Row (s : LibraryState) (u : User) : User :=
  if pass3Cond s u then { u with is_blocked := true } else u

/-- Pass 3 state change: every selected user is blocked. -/

def pass3State (s : LibraryState) : LibraryState :=
  { s with users := s.users.map (pass3Row s) }

/-- Pass 3 queues one blocked-notification per newly blocked user. -/

def pass3Events (s : LibraryState) : List SweepEvent :=
  (s.users.filter (pass3Cond s)).map (fun u => SweepEvent.userBlockedEmail u.email)

/-- email_tasks._check_and_cleanup_reservations: the three passes in
order within one session, returning the committed store and the queued
notifications. -/

def check_and_cleanup_reservations (now : Nat) (s : LibraryState) :
    LibraryState × List SweepEvent :=
  let s1 := pass1State now s
  let s2 := pass2State now s1
  (pass3State s2, pass1Events now s ++ pass3Events s2)

/-! ### Well-formedness of a store and the book-reservation coupling -/

/-- Database well-formedness: primary keys are unique and the insert
counter is fresh. -/

def WF (s : LibraryState) : Prop :=
  (s.books.map Book.id).Nodup ∧
  (s.reservations.map Reservation.id).Nodup ∧
  (∀ r ∈ s.reservations, r.id < s.nextReservationId)

instance (s : LibraryState) : Decidable (WF s) := by
  unfold WF; infer_instance

/-- Terminal reservation statuses per the spec. -/

def ReservationStatus.isTerminal : ReservationStatus → Bool
  | .CANCELLED => true
  | .COMPLETED => true
  | .EXPIRED => true
  | _ => false

/-- The coupling invariant that actually holds between the status of a book
and its reservations: at most one live reservation per book, and the
book is AVAILABLE or OVERDUE exactly when it has no live reservation
(equivalently, RESERVED or CHECKED_OUT exactly when it has one). -/

def Coupled (s : LibraryState) : Prop :=
  ∀ b ∈ s.books,
    liveCount s b.id ≤ 1 ∧
    ((b.status = BookStatus.AVAILABLE ∨ b.status = BookStatus.OVERDUE) ↔
      liveCount s b.id = 0)

instance (s : LibraryState) : Decidable (Coupled s) := by
  unfold Coupled; infer_instance

/-! ### Error constants (the HTTPExceptions raised by the endpoints) -/

def userNotFoundError : ApiError := ⟨404, "User not found"⟩

def blockedAccountError : ApiError :=
  ⟨403, "Your account is blocked and cannot perform this action."⟩

def overdueBlockedError : ApiError :=
  ⟨403, "You are blocked due to overdue books. Contact the librarian to unblock."⟩

def limitExceededError : ApiError :=
  ⟨400, "You can have up to 3 active or pending reservations in total. Please complete or cancel an existing one to proceed."⟩

def bookNotFoundError : ApiError := ⟨404, "Book not found"⟩

def alreadyReservedError : ApiError :=
  ⟨400, "This book is already reserved by another user."⟩

def notAvailableError (st : BookStatus) : ApiError :=
  ⟨400, "Book is currently " ++ st.value ++ " and cannot be reserved."⟩

def checkoutNotFoundError : ApiError :=
  ⟨404, "Reservation not found or not eligible for confirmation"⟩

/-- The state after check_and_block_user blocks the caller. -/
def blockCaller (s : LibraryState) (uid : Nat) : LibraryState :=
  mapUserById s uid (fun u => { u with is_blocked := true })

/-- The state after a successful create_reservation. -/

def createSuccessState (now uid : Nat) (s : LibraryState) (book : Book) : LibraryState :=
  let s2 := mapBookById s book.id (fun b => { b with status := BookStatus.RESERVED })
  { s2 with
    reservations := s2.reservations ++
      [{ id := s.nextReservationId
         book_id := book.id
         user_id := uid
         status := ReservationStatus.PENDING
         expires_at := some (now + 5 * 86400) }]
    nextReservationId := s.nextReservationId + 1 }

/-- The reservation row inserted by a successful create_reservation. -/

def createdRow (now uid : Nat) (s : LibraryState) (book : Book) : Reservation :=
  { id := s.nextReservationId
    book_id := book.id
    user_id := uid
    status := ReservationStatus.PENDING
    expires_at := some (now + 5 * 86400) }

def reservationNotFoundError : ApiError := ⟨404, "Reservation not found"⟩

def notPendingError : ApiError := ⟨400, "Reservation is not pending"⟩

def associatedBookNotFoundError : ApiError := ⟨404, "Associated book not found"⟩

def cannotCancelTakenError : ApiError :=
  ⟨400, "This book is already checked out or overdue and cannot be cancelled. The user must return it first."⟩

def notReservedError : ApiError :=
  ⟨400, "Book is not in \x27reserved\x27 status and cannot be issued."⟩

def notCheckedOutError : ApiError :=
  ⟨400, "This book is not currently checked out or overdue."⟩

def notOwnerError : ApiError := ⟨403, "You can only cancel your own reservations"⟩

def userCannotCancelTakenError : ApiError :=
  ⟨400, "You cannot cancel this reservation because the book has already been taken or is overdue. Please return it instead."⟩

def onlyPendingOrConfirmedError : ApiError :=
  ⟨400, "Only pending or confirmed reservations can be cancelled."⟩

/-- The confirmed row written by confirm_reservation_by_librarian. -/

def confirmedRow (now : Nat) (r : Reservation) : Reservation :=
  { r with expires_at := some (now + 5 * 86400), status := ReservationStatus.CONFIRMED }

/-- The cancelled row written by the two decline endpoints. -/
def cancelledRow (r : Reservation) : Reservation :=
  { r with status := ReservationStatus.CANCELLED }

/-- The state after a successful decline: book AVAILABLE, row CANCELLED. -/

def declineSuccessState (s : LibraryState) (r : Reservation) (book : Book) :
    LibraryState :=
  mapReservationById
    (mapBookById s book.id (fun b => { b with status := BookStatus.AVAILABLE }))
    r.id (fun _ => cancelledRow r)

/-- The active row written by confirm_book_checkout_by_librarian. -/
def activeRow (now : Nat) (r : Reservation) : Reservation :=
  { r with expires_at := some (now + 14 * 86400), status := ReservationStatus.ACTIVE }

/-- The state after a successful checkout: book CHECKED_OUT, row ACTIVE. -/

def checkoutSuccessState (now : Nat) (s : LibraryState) (r : Reservation) (book : Book) :
    LibraryState :=
  mapReservationById
    (mapBookById s book.id (fun b => { b with status := BookStatus.CHECKED_OUT }))
    r.id (fun _ => activeRow now r)

/-- The completed row written by confirm_book_return_by_librarian. -/
def completedRow (r : Reservation) : Reservation :=
  { r with status := ReservationStatus.COMPLETED }

/-- The state after a successful return: book AVAILABLE, row COMPLETED. -/

def returnSuccessState (s : LibraryState) (r : Reservation) (book : Book) :
    LibraryState :=
  mapReservationById
    (mapBookById s book.id (fun b => { b with status := BookStatus.AVAILABLE }))
    r.id (fun _ => completedRow r)

/-- The combined effect of the two book passes on one book row. -/
def sweepBook (now : Nat) (s : LibraryState) (b : Book) : Book :=
  if pass2Hits now s b.id then { b with status := BookStatus.OVERDUE }
  else pass1Book now s b

/-! ### Concrete stores used by counterexamples and witnesses -/

/-- One AVAILABLE book, one unblocked user, empty ledger. -/
def exC4 : LibraryState :=
  { books := [⟨1, "b", BookStatus.AVAILABLE⟩]
    reservations := []
    users := [⟨1, "u", false⟩]
    nextReservationId := 1 }

/-- A RESERVED book with one expired CONFIRMED reservation. -/
def exC3 : LibraryState :=
  { books := [⟨1, "b", BookStatus.RESERVED⟩]
    reservations := [⟨1, 1, 1, ReservationStatus.CONFIRMED, some 50⟩]
    users := [⟨1, "u", false⟩]
    nextReservationId := 2 }

/-- A RESERVED book with one PENDING reservation of user 1. -/

def exPending : LibraryState :=
  { books := [⟨1, "b", BookStatus.RESERVED⟩]
    reservations := [⟨1, 1, 1, ReservationStatus.PENDING, some 0⟩]
    users := [⟨1, "u", false⟩]
    nextReservationId := 2 }

/-- An OVERDUE book whose reservation already EXPIRED. -/
def exC1 : LibraryState :=
  { books := [⟨1, "b", BookStatus.OVERDUE⟩]
    reservations := [⟨1, 1, 1, ReservationStatus.EXPIRED, some 0⟩]
    users := [⟨1, "u", false⟩]
    nextReservationId := 2 }

/-- A blocked user holding three PENDING reservations. -/
def exC6 : LibraryState :=
  { books := []
    reservations := [⟨1, 7, 1, ReservationStatus.PENDING, some 0⟩,
      ⟨2, 8, 1, ReservationStatus.PENDING, some 0⟩,
      ⟨3, 9, 1, ReservationStatus.PENDING, some 0⟩]
    users := [⟨1, "u", true⟩]
    nextReservationId := 4 }

/-- An unblocked, non-delinquent user at the quota. -/

def exC6w : LibraryState :=
  { books := [⟨1, "b", BookStatus.AVAILABLE⟩]
    reservations := [⟨1, 7, 1, ReservationStatus.PENDING, some 0⟩,
      ⟨2, 8, 1, ReservationStatus.PENDING, some 0⟩,
      ⟨3, 9, 1, ReservationStatus.PENDING, some 0⟩]
    users := [⟨1, "u", false⟩]
    nextReservationId := 4 }

/-- Two OVERDUE books linked to old cancelled reservations of user 1,
who also holds three PENDING reservations and is not yet blocked. -/
def exC10 : LibraryState :=
  { books := [⟨5, "e", BookStatus.OVERDUE⟩, ⟨6, "f", BookStatus.OVERDUE⟩]
    reservations := [⟨1, 5, 1, ReservationStatus.CANCELLED, some 0⟩,
      ⟨2, 6, 1, ReservationStatus.CANCELLED, some 0⟩,
      ⟨3, 7, 1, ReservationStatus.PENDING, some 0⟩,
      ⟨4, 8, 1, ReservationStatus.PENDING, some 0⟩,
      ⟨5, 9, 1, ReservationStatus.PENDING, some 0⟩]
    users := [⟨1, "u", false⟩]
    nextReservationId := 6 }

/-- Two checked-out books of one user, both past due. -/
def exC7 : LibraryState :=
  { books := [⟨1, "b", BookStatus.CHECKED_OUT⟩, ⟨2, "c", BookStatus.CHECKED_OUT⟩]
    reservations := [⟨1, 1, 1, ReservationStatus.ACTIVE, some 50⟩,
      ⟨2, 2, 1, ReservationStatus.ACTIVE, some 60⟩]
    users := [⟨1, "u", false⟩]
    nextReservationId := 3 }

/-- A CHECKED_OUT book whose loan already expired. -/
def exC2a : LibraryState :=
  { books := [⟨1, "b", BookStatus.CHECKED_OUT⟩]
    reservations := [⟨1, 1, 1, ReservationStatus.ACTIVE, some 0⟩]
    users := [⟨1, "u", false⟩]
    nextReservationId := 2 }

/-- A RESERVED book with a stale COMPLETED reservation next to the live
PENDING one. -/

def exC2b : LibraryState :=
  { books := [⟨1, "b", BookStatus.RESERVED⟩]
    reservations := [⟨1, 1, 1, ReservationStatus.COMPLETED, some 0⟩,
      ⟨2, 1, 2, ReservationStatus.PENDING, some 0⟩]
    users := [⟨1, "u", false⟩, ⟨2, "v", false⟩]
    nextReservationId := 3 }

/-! ### General list helpers -/
theorem eq_of_nodup_key {α β : Type} {f : α → β} {l : List α}
    (hN : (l.map f).Nodup) {x y : α} (hx : x ∈ l) (hy : y ∈ l) (hf : f x = f y) :
    x = y :=
  List.inj_on_of_nodup_map hN hx hy hf

theorem two_le_countP {α : Type} {p : α → Bool} {a b : α} {l : List α}
    (ha : a ∈ l) (hb : b ∈ l) (hab : a ≠ b) (hpa : p a = true) (hpb : p b = true) :
    2 ≤ l.countP p := by
  induction l with
  | nil => cases ha
  | cons c t ih =>
      rcases List.mem_cons.mp ha with rfl | ha'
      · have hb' : b ∈ t := by
          rcases List.mem_cons.mp hb with rfl | h
          · exact absurd rfl hab
          · exact h
        have h1 : 0 < t.countP p := List.countP_pos_iff.mpr ⟨b, hb', hpb⟩
        rw [List.countP_cons, hpa, if_pos rfl]
        omega
      · rcases List.mem_cons.mp hb with rfl | hb'
        · have h1 : 0 < t.countP p := List.countP_pos_iff.mpr ⟨a, ha', hpa⟩
          rw [List.countP_cons, hpb, if_pos rfl]
          omega
        · have := ih ha' hb'
          rw [List.countP_cons]
          omega

/-! ### Case analyses of the endpoints

One lemma per endpoint enumerating its branches with the guards that
select them; every claim proof below destructs these. -/

theorem create_user_missing {now uid bid : Nat} {s : LibraryState}
    (h : findUser s uid = none) :
    create_reservation now uid bid s = .err s userNotFoundError := by
  simp [create_reservation, h, userNotFoundError]

theorem create_user_blocked {now uid bid : Nat} {s : LibraryState} {u : User}
    (hu : findUser s uid = some u) (hb : u.is_blocked = true) :
    create_reservation now uid bid s = .err s blockedAccountError := by
  simp [create_reservation, hu, hb, blockedAccountError]

theorem create_delinquent {now uid bid : Nat} {s : LibraryState} {u : User}
    (hu : findUser s uid = some u) (hb : u.is_blocked = false)
    (hod : 2 ≤ overdueLinkedCount s uid) :
    create_reservation now uid bid s = .err (blockCaller s uid) overdueBlockedError := by
  simp [create_reservation, check_and_block_user, hu, hb, hod, blockCaller,
    overdueBlockedError]

theorem create_over_quota {now uid bid : Nat} {s : LibraryState} {u : User}
    (hu : findUser s uid = some u) (hb : u.is_blocked = false)
    (hod : ¬ 2 ≤ overdueLinkedCount s uid) (hq : 3 ≤ quotaCount s uid) :
    create_reservation now uid bid s = .err s limitExceededError := by
  simp [create_reservation, check_and_block_user, hu, hb, hod, hq, limitExceededError]

theorem create_book_missing {now uid bid : Nat} {s : LibraryState} {u : User}
    (hu : findUser s uid = some u) (hb : u.is_blocked = false)
    (hod : ¬ 2 ≤ overdueLinkedCount s uid) (hq : ¬ 3 ≤ quotaCount s uid)
    (hbk : findBook s bid = none) :
    create_reservation now uid bid s = .err s bookNotFoundError := by
  simp [create_reservation, check_and_block_user, hu, hb, hod, hq, hbk,
    bookNotFoundError]

theorem create_already_reserved {now uid bid : Nat} {s : LibraryState} {u : User}
    {book : Book} {r₀ : Reservation}
    (hu : findUser s uid = some u) (hb : u.is_blocked = false)
    (hod : ¬ 2 ≤ overdueLinkedCount s uid) (hq : ¬ 3 ≤ quotaCount s uid)
    (hbk : findBook s bid = some book)
    (hex : s.reservations.find? (fun r =>
      r.book_id == book.id &&
        (r.status == ReservationStatus.PENDING ||
          r.status == ReservationStatus.CONFIRMED)) = some r₀) :
    create_reservation now uid bid s = .err s alreadyReservedError := by
  simp [create_reservation, check_and_block_user, hu, hb, hod, hq, hbk, hex,
    alreadyReservedError]

theorem create_not_available {now uid bid : Nat} {s : LibraryState} {u : User}
    {book : Book}
    (hu : findUser s uid = some u) (hb : u.is_blocked = false)
    (hod : ¬ 2 ≤ overdueLinkedCount s uid) (hq : ¬ 3 ≤ quotaCount s uid)
    (hbk : findBook s bid = some book)
    (hex : s.reservations.find? (fun r =>
      r.book_id == book.id &&
        (r.status == ReservationStatus.PENDING ||
          r.status == ReservationStatus.CONFIRMED)) = none)
    (hav : book.status ≠ BookStatus.AVAILABLE) :
    create_reservation now uid bid s = .err s (notAvailableError book.status) := by
  simp [create_reservation, check_and_block_user, hu, hb, hod, hq, hbk, hex, hav,
    notAvailableError]

theorem create_success {now uid bid : Nat} {s : LibraryState} {u : User}
    {book : Book}
    (hu : findUser s uid = some u) (hb : u.is_blocked = false)
    (hod : ¬ 2 ≤ overdueLinkedCount s uid) (hq : ¬ 3 ≤ quotaCount s uid)
    (hbk : findBook s bid = some book)
    (hex : s.reservations.find? (fun r =>
      r.book_id == book.id &&
        (r.status == ReservationStatus.PENDING ||
          r.status == ReservationStatus.CONFIRMED)) = none)
    (hav : book.status = BookStatus.AVAILABLE) :
    create_reservation now uid bid s =
      .ok (createSuccessState now uid s book)
        { row := createdRow now uid s book, cancelled_by := none } := by
  simp [create_reservation, check_and_block_user, hu, hb, hod, hq, hbk, hex, hav,
    createSuccessState, createdRow, mapBookById]

theorem create_reservation_cases (now uid bid : Nat) (s : LibraryState) :
    (findUser s uid = none ∧
      create_reservation now uid bid s = .err s userNotFoundError) ∨
    (∃ u, findUser s uid = some u ∧ u.is_blocked = true ∧
      create_reservation now uid bid s = .err s blockedAccountError) ∨
    (∃ u, findUser s uid = some u ∧ u.is_blocked = false ∧
      overdueLinkedCount s uid ≥ 2 ∧
      create_reservation now uid bid s = .err (blockCaller s uid) overdueBlockedError) ∨
    (∃ u, findUser s uid = some u ∧ u.is_blocked = false ∧
      overdueLinkedCount s uid < 2 ∧ quotaCount s uid ≥ 3 ∧
      create_reservation now uid bid s = .err s limitExceededError) ∨
    (∃ u, findUser s uid = some u ∧ u.is_blocked = false ∧
      overdueLinkedCount s uid < 2 ∧ quotaCount s uid < 3 ∧ findBook s bid = none ∧
      create_reservation now uid bid s = .err s bookNotFoundError) ∨
    (∃ u book r₀, findUser s uid = some u ∧ u.is_blocked = false ∧
      overdueLinkedCount s uid < 2 ∧ quotaCount s uid < 3 ∧ findBook s bid = some book ∧
      s.reservations.find? (fun r =>
        r.book_id == book.id &&
          (r.status == ReservationStatus.PENDING ||
            r.status == ReservationStatus.CONFIRMED)) = some r₀ ∧
      create_reservation now uid bid s = .err s alreadyReservedError) ∨
    (∃ u book, findUser s uid = some u ∧ u.is_blocked = false ∧
      overdueLinkedCount s uid < 2 ∧ quotaCount s uid < 3 ∧ findBook s bid = some book ∧
      s.reservations.find? (fun r =>
        r.book_id == book.id &&
          (r.status == ReservationStatus.PENDING ||
            r.status == ReservationStatus.CONFIRMED)) = none ∧
      book.status ≠ BookStatus.AVAILABLE ∧
      create_reservation now uid bid s = .err s (notAvailableError book.status)) ∨
    (∃ u book, findUser s uid = some u ∧ u.is_blocked = false ∧
      overdueLinkedCount s uid < 2 ∧ quotaCount s uid < 3 ∧ findBook s bid = some book ∧
      s.reservations.find? (fun r =>
        r.book_id == book.id &&
          (r.status == ReservationStatus.PENDING ||
            r.status == ReservationStatus.CONFIRMED)) = none ∧
      book.status = BookStatus.AVAILABLE ∧
      create_reservation now uid bid s =
        .ok (createSuccessState now uid s book)
          { row := createdRow now uid s book, cancelled_by := none }) := by
  cases hu : findUser s uid with
  | none => exact Or.inl ⟨rfl, create_user_missing hu⟩
  | some u =>
      cases hb : u.is_blocked with
      | true => exact Or.inr (Or.inl ⟨u, rfl, hb, create_user_blocked hu hb⟩)
      | false =>
          by_cases hod : 2 ≤ overdueLinkedCount s uid
          · exact Or.inr (Or.inr (Or.inl ⟨u, rfl, hb, hod,
              create_delinquent hu hb hod⟩))
          · by_cases hq : 3 ≤ quotaCount s uid
            · exact Or.inr (Or.inr (Or.inr (Or.inl ⟨u, rfl, hb, by omega, hq,
                create_over_quota hu hb hod hq⟩)))
            · cases hbk : findBook s bid with
              | none =>
                  exact Or.inr (Or.inr (Or.inr (Or.inr (Or.inl
                    ⟨u, rfl, hb, by omega, by omega, rfl,
                      create_book_missing hu hb hod hq hbk⟩))))
              | some book =>
                  cases hex : s.reservations.find? (fun r =>
                      r.book_id == book.id &&
                        (r.status == ReservationStatus.PENDING ||
                          r.status == ReservationStatus.CONFIRMED)) with
                  | some r₀ =>
                      exact Or.inr (Or.inr (Or.inr (Or.inr (Or.inr (Or.inl
                        ⟨u, book, r₀, rfl, hb, by omega, by omega, rfl, hex,
                          create_already_reserved hu hb hod hq hbk hex⟩)))))
                  | none =>
                      by_cases hav : book.status = BookStatus.AVAILABLE
                      · exact Or.inr (Or.inr (Or.inr (Or.inr (Or.inr (Or.inr (Or.inr
                          ⟨u, book, rfl, hb, by omega, by omega, rfl, hex, hav,
                            create_success hu hb hod hq hbk hex hav⟩))))))
                      · exact Or.inr (Or.inr (Or.inr (Or.inr (Or.inr (Or.inr (Or.inl
                          ⟨u, book, rfl, hb, by omega, by omega, rfl, hex, hav,
                            create_not_available hu hb hod hq hbk hex hav⟩))))))


theorem confirm_cases (now rid : Nat) (s : LibraryState) :
    (findReservation s rid = none ∧
      confirm_reservation_by_librarian now rid s = .err s reservationNotFoundError) ∨
    (∃ r, findReservation s rid = some r ∧ r.status ≠ ReservationStatus.PENDING ∧
      confirm_reservation_by_librarian now rid s = .err s notPendingError) ∨
    (∃ r, findReservation s rid = some r ∧ r.status = ReservationStatus.PENDING ∧
      findBook s r.book_id = none ∧
      confirm_reservation_by_librarian now rid s = .err s associatedBookNotFoundError) ∨
    (∃ r book, findReservation s rid = some r ∧ r.status = ReservationStatus.PENDING ∧
      findBook s r.book_id = some book ∧
      (book.status = BookStatus.CHECKED_OUT ∨ book.status = BookStatus.OVERDUE) ∧
      confirm_reservation_by_librarian now rid s = .err s (notAvailableError book.status)) ∨
    (∃ r book, findReservation s rid = some r ∧ r.status = ReservationStatus.PENDING ∧
      findBook s r.book_id = some book ∧
      book.status ≠ BookStatus.CHECKED_OUT ∧ book.status ≠ BookStatus.OVERDUE ∧
      confirm_reservation_by_librarian now rid s =
        .ok (mapReservationById s rid (fun _ => confirmedRow now r))
          { row := confirmedRow now r, cancelled_by := none }) := by
  cases hr : findReservation s rid with
  | none =>
      refine Or.inl ⟨rfl, ?_⟩
      simp [confirm_reservation_by_librarian, hr, reservationNotFoundError]
  | some r =>
      by_cases hp : r.status = ReservationStatus.PENDING
      · cases hbk : findBook s r.book_id with
        | none =>
            refine Or.inr (Or.inr (Or.inl ⟨r, rfl, hp, hbk, ?_⟩))
            simp [confirm_reservation_by_librarian, hr, hp, hbk,
              associatedBookNotFoundError]
        | some book =>
            by_cases hco : book.status = BookStatus.CHECKED_OUT ∨
                book.status = BookStatus.OVERDUE
            · refine Or.inr (Or.inr (Or.inr (Or.inl ⟨r, book, rfl, hp, hbk, hco, ?_⟩)))
              rcases hco with h | h <;>
                simp [confirm_reservation_by_librarian, hr, hp, hbk, h,
                  notAvailableError]
            · push_neg at hco
              refine Or.inr (Or.inr (Or.inr (Or.inr
                ⟨r, book, rfl, hp, hbk, hco.1, hco.2, ?_⟩)))
              simp [confirm_reservation_by_librarian, hr, hp, hbk, hco.1, hco.2,
                confirmedRow, mapReservationById]
      · refine Or.inr (Or.inl ⟨r, rfl, hp, ?_⟩)
        simp [confirm_reservation_by_librarian, hr, hp, notPendingError]

theorem decline_librarian_cases (rid : Nat) (s : LibraryState) :
    (findReservation s rid = none ∧
      decline_reservation_by_librarian rid s = .err s reservationNotFoundError) ∨
    (∃ r, findReservation s rid = some r ∧ findBook s r.book_id = none ∧
      decline_reservation_by_librarian rid s = .err s associatedBookNotFoundError) ∨
    (∃ r book, findReservation s rid = some r ∧ findBook s r.book_id = some book ∧
      (book.status = BookStatus.CHECKED_OUT ∨ book.status = BookStatus.OVERDUE) ∧
      decline_reservation_by_librarian rid s = .err s cannotCancelTakenError) ∨
    (∃ r book, findReservation s rid = some r ∧ findBook s r.book_id = some book ∧
      book.status ≠ BookStatus.CHECKED_OUT ∧ book.status ≠ BookStatus.OVERDUE ∧
      r.id = rid ∧
      decline_reservation_by_librarian rid s =
        .ok (declineSuccessState s r book)
          { row := cancelledRow r, cancelled_by := some "librarian" }) := by
  cases hr : findReservation s rid with
  | none =>
      refine Or.inl ⟨rfl, ?_⟩
      simp [decline_reservation_by_librarian, hr, reservationNotFoundError]
  | some r =>
      have hrid : r.id = rid := by
        have := List.find?_some hr
        simpa using this
      cases hbk : findBook s r.book_id with
      | none =>
          refine Or.inr (Or.inl ⟨r, rfl, hbk, ?_⟩)
          simp [decline_reservation_by_librarian, hr, hbk, associatedBookNotFoundError]
      | some book =>
          by_cases hco : book.status = BookStatus.CHECKED_OUT ∨
              book.status = BookStatus.OVERDUE
          · refine Or.inr (Or.inr (Or.inl ⟨r, book, rfl, hbk, hco, ?_⟩))
            rcases hco with h | h <;>
              simp [decline_reservation_by_librarian, hr, hbk, h, cannotCancelTakenError]
          · push_neg at hco
            refine Or.inr (Or.inr (Or.inr ⟨r, book, rfl, hbk, hco.1, hco.2, hrid, ?_⟩))
            simp [decline_reservation_by_librarian, hr, hbk, hco.1, hco.2,
              declineSuccessState, cancelledRow, mapReservationById, mapBookById, hrid]

theorem checkout_cases (now rid : Nat) (s : LibraryState) :
    (s.reservations.find? (fun r =>
        r.id == rid && r.status == ReservationStatus.CONFIRMED) = none ∧
      confirm_book_checkout_by_librarian now rid s = .err s checkoutNotFoundError) ∨
    (∃ r, s.reservations.find? (fun r =>
        r.id == rid && r.status == ReservationStatus.CONFIRMED) = some r ∧
      findBook s r.book_id = none ∧
      confirm_book_checkout_by_librarian now rid s = .err s associatedBookNotFoundError) ∨
    (∃ r book, s.reservations.find? (fun r =>
        r.id == rid && r.status == ReservationStatus.CONFIRMED) = some r ∧
      findBook s r.book_id = some book ∧ book.status ≠ BookStatus.RESERVED ∧
      confirm_book_checkout_by_librarian now rid s = .err s notReservedError) ∨
    (∃ r book, s.reservations.find? (fun r =>
        r.id == rid && r.status == ReservationStatus.CONFIRMED) = some r ∧
      findBook s r.book_id = some book ∧ book.status = BookStatus.RESERVED ∧
      r.id = rid ∧ r.status = ReservationStatus.CONFIRMED ∧
      confirm_book_checkout_by_librarian now rid s =
        .ok (checkoutSuccessState now s r book)
          { row := activeRow now r, cancelled_by := none }) := by
  cases hr : s.reservations.find? (fun r =>
      r.id == rid && r.status == ReservationStatus.CONFIRMED) with
  | none =>
      refine Or.inl ⟨rfl, ?_⟩
      simp [confirm_book_checkout_by_librarian, hr, checkoutNotFoundError]
  | some r =>
      have hprops := List.find?_some hr
      have hrid : r.id = rid := by
        have := hprops
        simp only [Bool.and_eq_true, beq_iff_eq] at this
        exact this.1
      have hst : r.status = ReservationStatus.CONFIRMED := by
        have := hprops
        simp only [Bool.and_eq_true, beq_iff_eq] at this
        exact this.2
      cases hbk : findBook s r.book_id with
      | none =>
          refine Or.inr (Or.inl ⟨r, rfl, hbk, ?_⟩)
          simp [confirm_book_checkout_by_librarian, hr, hbk, associatedBookNotFoundError]
      | some book =>
          by_cases hres : book.status = BookStatus.RESERVED
          · refine Or.inr (Or.inr (Or.inr ⟨r, book, rfl, hbk, hres, hrid, hst, ?_⟩))
            simp [confirm_book_checkout_by_librarian, hr, hbk, hres,
              checkoutSuccessState, activeRow, mapReservationById, mapBookById, hrid]
          · refine Or.inr (Or.inr (Or.inl ⟨r, book, rfl, hbk, hres, ?_⟩))
            simp [confirm_book_checkout_by_librarian, hr, hbk, hres, notReservedError]

theorem return_cases (rid : Nat) (s : LibraryState) :
    (findReservation s rid = none ∧
      confirm_book_return_by_librarian rid s = .err s reservationNotFoundError) ∨
    (∃ r, findReservation s rid = some r ∧ findBook s r.book_id = none ∧
      confirm_book_return_by_librarian rid s = .err s associatedBookNotFoundError) ∨
    (∃ r book, findReservation s rid = some r ∧ findBook s r.book_id = some book ∧
      book.status ≠ BookStatus.CHECKED_OUT ∧ book.status ≠ BookStatus.OVERDUE ∧
      confirm_book_return_by_librarian rid s = .err s notCheckedOutError) ∨
    (∃ r book, findReservation s rid = some r ∧ findBook s r.book_id = some book ∧
      (book.status = BookStatus.CHECKED_OUT ∨ book.status = BookStatus.OVERDUE) ∧
      r.id = rid ∧
      confirm_book_return_by_librarian rid s =
        .ok (returnSuccessState s r book)
          { row := completedRow r, cancelled_by := none }) := by
  cases hr : findReservation s rid with
  | none =>
      refine Or.inl ⟨rfl, ?_⟩
      simp [confirm_book_return_by_librarian, hr, reservationNotFoundError]
  | some r =>
      have hrid : r.id = rid := by
        have := List.find?_some hr
        simpa using this
      cases hbk : findBook s r.book_id with
      | none =>
          refine Or.inr (Or.inl ⟨r, rfl, hbk, ?_⟩)
          simp [confirm_book_return_by_librarian, hr, hbk, associatedBookNotFoundError]
      | some book =>
          by_cases hco : book.status = BookStatus.CHECKED_OUT ∨
              book.status = BookStatus.OVERDUE
          · refine Or.inr (Or.inr (Or.inr ⟨r, book, rfl, hbk, hco, hrid, ?_⟩))
            rcases hco with h | h <;>
              simp [confirm_book_return_by_librarian, hr, hbk, h,
                returnSuccessState, completedRow, mapReservationById, mapBookById, hrid]
          · push_neg at hco
            refine Or.inr (Or.inr (Or.inl ⟨r, book, rfl, hbk, hco.1, hco.2, ?_⟩))
            simp [confirm_book_return_by_librarian, hr, hbk, hco.1, hco.2,
              notCheckedOutError]

theorem decline_user_cases (rid uid : Nat) (s : LibraryState) :
    (findReservation s rid = none ∧
      decline_reservation_user rid uid s = .err s reservationNotFoundError) ∨
    (∃ r, findReservation s rid = some r ∧ r.user_id ≠ uid ∧
      decline_reservation_user rid uid s = .err s notOwnerError) ∨
    (∃ r, findReservation s rid = some r ∧ r.user_id = uid ∧
      findBook s r.book_id = none ∧
      decline_reservation_user rid uid s = .err s associatedBookNotFoundError) ∨
    (∃ r book, findReservation s rid = some r ∧ r.user_id = uid ∧
      findBook s r.book_id = some book ∧
      (book.status = BookStatus.CHECKED_OUT ∨ book.status = BookStatus.OVERDUE) ∧
      decline_reservation_user rid uid s = .err s userCannotCancelTakenError) ∨
    (∃ r book, findReservation s rid = some r ∧ r.user_id = uid ∧
      findBook s r.book_id = some book ∧
      book.status ≠ BookStatus.CHECKED_OUT ∧ book.status ≠ BookStatus.OVERDUE ∧
      r.status ≠ ReservationStatus.PENDING ∧ r.status ≠ ReservationStatus.CONFIRMED ∧
      decline_reservation_user rid uid s = .err s onlyPendingOrConfirmedError) ∨
    (∃ r book, findReservation s rid = some r ∧ r.user_id = uid ∧
      findBook s r.book_id = some book ∧
      book.status ≠ BookStatus.CHECKED_OUT ∧ book.status ≠ BookStatus.OVERDUE ∧
      (r.status = ReservationStatus.PENDING ∨ r.status = ReservationStatus.CONFIRMED) ∧
      r.id = rid ∧
      decline_reservation_user rid uid s =
        .ok (declineSuccessState s r book)
          { row := cancelledRow r, cancelled_by := some "user" }) := by
  cases hr : findReservation s rid with
  | none =>
      refine Or.inl ⟨rfl, ?_⟩
      simp [decline_reservation_user, hr, reservationNotFoundError]
  | some r =>
      have hrid : r.id = rid := by
        have := List.find?_some hr
        simpa using this
      by_cases hown : r.user_id = uid
      · cases hbk : findBook s r.book_id with
        | none =>
            refine Or.inr (Or.inr (Or.inl ⟨r, rfl, hown, hbk, ?_⟩))
            simp [decline_reservation_user, hr, hown, hbk, associatedBookNotFoundError]
        | some book =>
            by_cases hco : book.status = BookStatus.CHECKED_OUT ∨
                book.status = BookStatus.OVERDUE
            · refine Or.inr (Or.inr (Or.inr (Or.inl ⟨r, book, rfl, hown, hbk, hco, ?_⟩)))
              rcases hco with h | h <;>
                simp [decline_reservation_user, hr, hown, hbk, h,
                  userCannotCancelTakenError]
            · push_neg at hco
              by_cases hst : r.status = ReservationStatus.PENDING ∨
                  r.status = ReservationStatus.CONFIRMED
              · refine Or.inr (Or.inr (Or.inr (Or.inr (Or.inr
                  ⟨r, book, rfl, hown, hbk, hco.1, hco.2, hst, hrid, ?_⟩))))
                rcases hst with h | h <;>
                  simp [decline_reservation_user, hr, hown, hbk, hco.1, hco.2, h,
                    declineSuccessState, cancelledRow, mapReservationById, mapBookById,
                    hrid]
              · push_neg at hst
                refine Or.inr (Or.inr (Or.inr (Or.inr (Or.inl
                  ⟨r, book, rfl, hown, hbk, hco.1, hco.2, hst.1, hst.2, ?_⟩))))
                simp [decline_reservation_user, hr, hown, hbk, hco.1, hco.2,
                  hst.1, hst.2, onlyPendingOrConfirmedError]
      · refine Or.inr (Or.inl ⟨r, rfl, hown, ?_⟩)
        simp [decline_reservation_user, hr, hown, notOwnerError]

/-! ### Structural lemmas about the sweep -/

theorem pass1Row_id (now : Nat) (r : Reservation) : (pass1Row now r).id = r.id := by
  unfold pass1Row
  split <;> rfl

theorem pass1Row_book_id (now : Nat) (r : Reservation) :
    (pass1Row now r).book_id = r.book_id := by
  unfold pass1Row
  split <;> rfl

theorem pass1Row_user_id (now : Nat) (r : Reservation) :
    (pass1Row now r).user_id = r.user_id := by
  unfold pass1Row
  split <;> rfl

theorem pass2Row_id (now : Nat) (r : Reservation) : (pass2Row now r).id = r.id := by
  unfold pass2Row
  split <;> rfl

theorem pass2Row_book_id (now : Nat) (r : Reservation) :
    (pass2Row now r).book_id = r.book_id := by
  unfold pass2Row
  split <;> rfl

theorem pass2Row_user_id (now : Nat) (r : Reservation) :
    (pass2Row now r).user_id = r.user_id := by
  unfold pass2Row
  split <;> rfl

theorem pass1Book_id (now : Nat) (s : LibraryState) (b : Book) :
    (pass1Book now s b).id = b.id := by
  unfold pass1Book
  split <;> rfl

/-- Pass 1 never produces an ACTIVE row, so pass 2 selects a transformed
row exactly when it selected the original. -/

theorem pass2Cond_pass1Row (now : Nat) (r : Reservation) :
    pass2Cond now (pass1Row now r) = pass2Cond now r := by
  by_cases h : pass1Cond now r = true
  · have hst : r.status = ReservationStatus.CONFIRMED := by
      unfold pass1Cond at h
      simp only [Bool.and_eq_true, beq_iff_eq] at h
      exact h.2
    unfold pass1Row
    rw [if_pos h]
    have h1 : (ReservationStatus.CANCELLED == ReservationStatus.ACTIVE) = false := rfl
    have h2 : (ReservationStatus.CONFIRMED == ReservationStatus.ACTIVE) = false := rfl
    simp [pass2Cond, expiredBefore, hst, h1, h2]
  · unfold pass1Row
    rw [if_neg h]

theorem pass2Hits_pass1 (now : Nat) (s : LibraryState) (bid : Nat) :
    pass2Hits now (pass1State now s) bid = pass2Hits now s bid := by
  show (s.reservations.map (pass1Row now)).any _ = _
  rw [List.any_map]
  unfold pass2Hits
  induction s.reservations with
  | nil => rfl
  | cons a t ih =>
      simp only [List.any_cons, ih, Function.comp_apply, pass2Cond_pass1Row,
        pass1Row_book_id]

/-- The reservation table after a full sweep. -/

theorem sweep_reservations (now : Nat) (s : LibraryState) :
    (check_and_cleanup_reservations now s).1.reservations =
      s.reservations.map (fun r => pass2Row now (pass1Row now r)) := by
  unfold check_and_cleanup_reservations pass3State pass2State pass1State
  simp [List.map_map, Function.comp]

/-- The book table after a full sweep. -/
theorem sweep_books (now : Nat) (s : LibraryState) :
    (check_and_cleanup_reservations now s).1.books =
      s.books.map (sweepBook now s) := by
  show ((pass1State now s).books.map (pass2Book now (pass1State now s))) = _
  have h1 : (pass1State now s).books = s.books.map (pass1Book now s) := rfl
  rw [h1, List.map_map]
  apply List.map_congr_left
  intro b _
  simp only [Function.comp_apply]
  unfold pass2Book sweepBook
  rw [pass1Book_id, pass2Hits_pass1]
  split
  · cases b with
    | mk i t st =>
        unfold pass1Book
        split <;> rfl
  · rfl

/-- The user table after a full sweep. -/

theorem sweep_users (now : Nat) (s : LibraryState) :
    (check_and_cleanup_reservations now s).1.users =
      s.users.map (pass3Row (pass2State now (pass1State now s))) := by
  unfold check_and_cleanup_reservations pass3State
  rfl

/-! ### Lookup and counting helper lemmas -/

theorem state_ext {a b : LibraryState} (h1 : a.books = b.books)
    (h2 : a.reservations = b.reservations) (h3 : a.users = b.users)
    (h4 : a.nextReservationId = b.nextReservationId) : a = b := by
  cases a
  cases b
  simp_all

theorem findBook_mapBookById (s : LibraryState) (bid tid : Nat) (f : Book → Book)
    (hf : ∀ b, (f b).id = b.id) :
    findBook (mapBookById s bid f) tid =
      (findBook s tid).map (fun b => if b.id == bid then f b else b) := by
  show List.find? _ (s.books.map _) = _
  rw [List.find?_map]
  have hp : ((fun b : Book => b.id == tid) ∘
      (fun b => if b.id == bid then f b else b)) = (fun b : Book => b.id == tid) := by
    funext b
    by_cases hb : (b.id == bid) = true
    · simp [Function.comp, hb, hf]
    · simp [Function.comp, hb]
  rw [hp]
  rfl

theorem findUser_mapUserById (s : LibraryState) (uid tid : Nat) (f : User → User)
    (hf : ∀ u, (f u).id = u.id) :
    findUser (mapUserById s uid f) tid =
      (findUser s tid).map (fun u => if u.id == uid then f u else u) := by
  show List.find? _ (s.users.map _) = _
  rw [List.find?_map]
  have hp : ((fun u : User => u.id == tid) ∘
      (fun u => if u.id == uid then f u else u)) = (fun u : User => u.id == tid) := by
    funext u
    by_cases hu : (u.id == uid) = true
    · simp [Function.comp, hu, hf]
    · simp [Function.comp, hu]
  rw [hp]
  rfl

theorem findReservation_mapReservationById (s : LibraryState) (rid tid : Nat)
    (f : Reservation → Reservation) (hf : ∀ r, (f r).id = r.id) :
    findReservation (mapReservationById s rid f) tid =
      (findReservation s tid).map (fun r => if r.id == rid then f r else r) := by
  show List.find? _ (s.reservations.map _) = _
  rw [List.find?_map]
  have hp : ((fun r : Reservation => r.id == tid) ∘
      (fun r => if r.id == rid then f r else r)) = (fun r : Reservation => r.id == tid) := by
    funext r
    by_cases hr : (r.id == rid) = true
    · simp [Function.comp, hr, hf]
    · simp [Function.comp, hr]
  rw [hp]
  rfl

/-- With unique primary keys, looking a member row up by its own id finds
exactly that row. -/

theorem findReservation_eq_of_mem {s : LibraryState} {r : Reservation}
    (hN : (s.reservations.map Reservation.id).Nodup) (hr : r ∈ s.reservations) :
    findReservation s r.id = some r := by
  cases h : findReservation s r.id with
  | none =>
      exfalso
      have := List.find?_eq_none.mp h r hr
      simp at this
  | some x =>
      have hx : x ∈ s.reservations := List.mem_of_find?_eq_some h
      have hxid : x.id = r.id := by
        have := List.find?_some h
        simpa using this
      rw [eq_of_nodup_key hN hx hr hxid]

theorem findBook_eq_of_mem {s : LibraryState} {b : Book}
    (hN : (s.books.map Book.id).Nodup) (hb : b ∈ s.books) :
    findBook s b.id = some b := by
  cases h : findBook s b.id with
  | none =>
      exfalso
      have := List.find?_eq_none.mp h b hb
      simp at this
  | some x =>
      have hx : x ∈ s.books := List.mem_of_find?_eq_some h
      have hxid : x.id = b.id := by
        have := List.find?_some h
        simpa using this
      rw [eq_of_nodup_key hN hx hb hxid]

/-- Updating the unique row with a given id by a replacement whose
contribution to a count is unchanged leaves the count unchanged. -/

theorem countP_update_eq {l : List Reservation} {r₀ w : Reservation} {rid : Nat}
    {p : Reservation → Bool}
    (hN : (l.map Reservation.id).Nodup) (h0 : r₀ ∈ l) (hrid : r₀.id = rid)
    (hpw : p w = p r₀) :
    (l.map (fun x => if x.id == rid then w else x)).countP p = l.countP p := by
  subst hrid
  rw [List.countP_map]
  apply List.countP_congr
  intro x hx
  by_cases hid : (x.id == r₀.id) = true
  · have hxr : x = r₀ := eq_of_nodup_key hN hx h0 (by simpa using hid)
    subst hxr
    simp [hpw]
  · simp only [Function.comp_apply, hid]
    rw [if_neg (by simpa using hid)]

/-- Replacing the unique counted row (a count at most 1) by one that no
longer counts drives the count to zero. -/

theorem countP_update_zero {l : List Reservation} {r₀ w : Reservation} {rid : Nat}
    {p : Reservation → Bool}
    (hN : (l.map Reservation.id).Nodup) (h0 : r₀ ∈ l) (hrid : r₀.id = rid)
    (hp0 : p r₀ = true)
    (hle : l.countP p ≤ 1) (hpw : p w = false) :
    (l.map (fun x => if x.id == rid then w else x)).countP p = 0 := by
  subst hrid
  rw [List.countP_map, List.countP_eq_zero]
  intro x hx
  by_cases hid : (x.id == r₀.id) = true
  · simp only [Function.comp_apply, hid, if_true, hpw]
    exact Bool.false_ne_true
  · simp only [Function.comp_apply, hid]
    rw [if_neg (by simpa using hid)]
    intro hpx
    have hne : x ≠ r₀ := by
      intro hxe
      rw [hxe] at hid
      simp at hid
    have := two_le_countP hx h0 hne hpx hp0
    omega

theorem countP_append_single (l : List Reservation) (a : Reservation)
    (p : Reservation → Bool) :
    (l ++ [a]).countP p = l.countP p + (if p a then 1 else 0) := by
  rw [List.countP_append]
  simp [List.countP_cons]

/-! ### Preservation of the book-reservation coupling by each endpoint -/

theorem coupled_of_eq {s t : LibraryState} (hC : Coupled s)
    (hb : t.books = s.books) (hres : ∀ bid, liveCount t bid = liveCount s bid) :
    Coupled t := by
  intro b hbmem
  rw [hb] at hbmem
  rw [hres]
  exact hC b hbmem

/-- Both decline endpoints and the return endpoint rewrite the target
book to AVAILABLE and the target reservation to a dead status; the
coupling survives when the target reservation was the unique live
reservation of the book, or the book had no live reservation at all. -/

theorem coupled_availReplace {s : LibraryState} (hWF : WF s) (hC : Coupled s)
    {r : Reservation} {book : Book} {w : Reservation}
    (h0 : r ∈ s.reservations) (hbook : book ∈ s.books) (hbid : book.id = r.book_id)
    (hw : ∀ bid, liveFor bid w = false)
    (hcase : liveFor book.id r = true ∨ liveCount s book.id = 0) :
    Coupled (mapReservationById
      (mapBookById s book.id (fun b => { b with status := BookStatus.AVAILABLE }))
      r.id (fun _ => w)) := by
  have hcount : ∀ bid, liveCount (mapReservationById
      (mapBookById s book.id (fun b => { b with status := BookStatus.AVAILABLE }))
      r.id (fun _ => w)) bid =
        if bid = book.id ∧ liveFor book.id r = true then 0 else liveCount s bid := by
    intro bid
    show (s.reservations.map _).countP (liveFor bid) = _
    by_cases hcond : bid = book.id ∧ liveFor book.id r = true
    · rw [if_pos hcond]
      rcases hcond with ⟨rfl, hlv⟩
      exact countP_update_zero hWF.2.1 h0 rfl hlv (hC book hbook).1 (hw book.id)
    · rw [if_neg hcond]
      apply countP_update_eq hWF.2.1 h0 rfl
      rw [hw bid]
      have hlf : liveFor bid r = false := by
        by_cases hbb : bid = book.id
        · subst hbb
          cases h : liveFor book.id r with
          | false => rfl
          | true => exact absurd ⟨rfl, h⟩ hcond
        · have hne : r.book_id ≠ bid := by
            rw [← hbid]
            exact fun hh => hbb hh.symm
          simp [liveFor, hne]
      rw [hlf]
  intro b' hb'
  have hb'' : b' ∈ s.books.map
      (fun b => if b.id == book.id then { b with status := BookStatus.AVAILABLE } else b) :=
    hb'
  obtain ⟨b, hbm, rfl⟩ := List.mem_map.mp hb''
  by_cases hbeq : (b.id == book.id) = true
  · have hbb : b = book := eq_of_nodup_key hWF.1 hbm hbook (by simpa using hbeq)
    subst hbb
    rw [if_pos hbeq]
    have hz : liveCount (mapReservationById
        (mapBookById s b.id (fun bb => { bb with status := BookStatus.AVAILABLE }))
        r.id (fun _ => w)) b.id = 0 := by
      rw [hcount]
      rcases hcase with hlv | hz0
      · rw [if_pos ⟨rfl, hlv⟩]
      · rw [if_neg]
        · exact hz0
        · intro hcc
          have : 0 < liveCount s b.id := List.countP_pos_iff.mpr ⟨r, h0, hcc.2⟩
          omega
    constructor
    · rw [hz]
      omega
    · rw [hz]
      simp
  · rw [if_neg hbeq]
    have hbne : b.id ≠ book.id := by simpa using hbeq
    have hcb : liveCount (mapReservationById
        (mapBookById s book.id (fun bb => { bb with status := BookStatus.AVAILABLE }))
        r.id (fun _ => w)) b.id = liveCount s b.id := by
      rw [hcount, if_neg]
      intro hcc
      exact hbne hcc.1
    rw [hcb]
    exact hC b hbm

/-- Checkout rewrites the book RESERVED → CHECKED_OUT and the target
CONFIRMED reservation to ACTIVE: the live set is unchanged and the book
stays on the has-a-live-reservation side of the coupling. -/

theorem coupled_keepReplace {s : LibraryState} (hWF : WF s) (hC : Coupled s)
    {r : Reservation} {book : Book} {w : Reservation} {newSt : BookStatus}
    (h0 : r ∈ s.reservations) (hbook : book ∈ s.books)
    (hpw : ∀ bid, liveFor bid w = liveFor bid r)
    (hstEquiv : (newSt = BookStatus.AVAILABLE ∨ newSt = BookStatus.OVERDUE) ↔
      (book.status = BookStatus.AVAILABLE ∨ book.status = BookStatus.OVERDUE)) :
    Coupled (mapReservationById
      (mapBookById s book.id (fun b => { b with status := newSt }))
      r.id (fun _ => w)) := by
  have hcount : ∀ bid, liveCount (mapReservationById
      (mapBookById s book.id (fun b => { b with status := newSt }))
      r.id (fun _ => w)) bid = liveCount s bid := by
    intro bid
    show (s.reservations.map _).countP (liveFor bid) = _
    exact countP_update_eq hWF.2.1 h0 rfl (hpw bid)
  intro b' hb'
  obtain ⟨b, hbm, rfl⟩ := List.mem_map.mp hb'
  rw [hcount]
  by_cases hbeq : (b.id == book.id) = true
  · have hbb : b = book := eq_of_nodup_key hWF.1 hbm hbook (by simpa using hbeq)
    subst hbb
    rw [if_pos hbeq]
    refine ⟨(hC b hbm).1, ?_⟩
    exact hstEquiv.trans (hC b hbm).2
  · rw [if_neg hbeq]
    exact hC b hbm

theorem coupled_create (now uid bid : Nat) {s : LibraryState}
    (hWF : WF s) (hC : Coupled s) :
    Coupled (create_reservation now uid bid s).state := by
  rcases create_reservation_cases now uid bid s with
    ⟨_, heq⟩ | ⟨u, _, _, heq⟩ | ⟨u, _, _, _, heq⟩ | ⟨u, _, _, _, _, heq⟩ |
    ⟨u, _, _, _, _, _, heq⟩ | ⟨u, book, r₀, _, _, _, _, _, _, heq⟩ |
    ⟨u, book, _, _, _, _, _, _, _, heq⟩ |
    ⟨u, book, _, _, _, _, hbk, hex, hav, heq⟩
  · rw [heq]; exact hC
  · rw [heq]; exact hC
  · rw [heq]
    exact coupled_of_eq hC rfl (fun _ => rfl)
  · rw [heq]; exact hC
  · rw [heq]; exact hC
  · rw [heq]; exact hC
  · rw [heq]; exact hC
  · rw [heq]
    show Coupled (createSuccessState now uid s book)
    have hmem : book ∈ s.books := List.mem_of_find?_eq_some hbk
    have hz : liveCount s book.id = 0 := (hC book hmem).2.mp (Or.inl hav)
    have hcount : ∀ tid, liveCount (createSuccessState now uid s book) tid =
        liveCount s tid + (if (book.id == tid) = true then 1 else 0) := by
      intro tid
      show (s.reservations ++ [createdRow now uid s book]).countP (liveFor tid) = _
      rw [countP_append_single]
      congr 1
      have : liveFor tid (createdRow now uid s book) = (book.id == tid) := by
        simp [liveFor, createdRow, ReservationStatus.isLive]
      rw [this]
    intro b' hb'
    have hb'' : b' ∈ s.books.map (fun b =>
        if b.id == book.id then { b with status := BookStatus.RESERVED } else b) := hb'
    obtain ⟨b, hbm, rfl⟩ := List.mem_map.mp hb''
    by_cases hbeq : (b.id == book.id) = true
    · have hbb : b = book := eq_of_nodup_key hWF.1 hbm hmem (by simpa using hbeq)
      subst hbb
      rw [if_pos hbeq]
      rw [hcount]
      simp only [beq_self_eq_true, if_pos]
      rw [hz]
      constructor
      · omega
      · simp
    · rw [if_neg hbeq]
      rw [hcount]
      have : (book.id == b.id) = false := by
        have h1 : b.id ≠ book.id := by simpa using hbeq
        simpa using fun hh => h1 hh.symm
      rw [this]
      simpa using hC b hbm

theorem coupled_confirm (now rid : Nat) {s : LibraryState}
    (hWF : WF s) (hC : Coupled s) :
    Coupled (confirm_reservation_by_librarian now rid s).state := by
  rcases confirm_cases now rid s with
    ⟨_, heq⟩ | ⟨r, _, _, heq⟩ | ⟨r, _, _, _, heq⟩ | ⟨r, book, _, _, _, _, heq⟩ |
    ⟨r, book, hr, hp, hbk, _, _, heq⟩
  · rw [heq]; exact hC
  · rw [heq]; exact hC
  · rw [heq]; exact hC
  · rw [heq]; exact hC
  · rw [heq]
    show Coupled (mapReservationById s rid (fun _ => confirmedRow now r))
    have h0 : r ∈ s.reservations := List.mem_of_find?_eq_some hr
    have hrid : r.id = rid := by simpa using List.find?_some hr
    have hres : ∀ tid, liveCount (mapReservationById s rid
        (fun _ => confirmedRow now r)) tid = liveCount s tid := by
      intro tid
      show (s.reservations.map _).countP (liveFor tid) = _
      apply countP_update_eq hWF.2.1 h0 hrid
      simp [liveFor, confirmedRow, ReservationStatus.isLive, hp]
    exact coupled_of_eq hC rfl hres

theorem coupled_checkout (now rid : Nat) {s : LibraryState}
    (hWF : WF s) (hC : Coupled s) :
    Coupled (confirm_book_checkout_by_librarian now rid s).state := by
  rcases checkout_cases now rid s with
    ⟨_, heq⟩ | ⟨r, _, _, heq⟩ | ⟨r, book, _, _, _, heq⟩ |
    ⟨r, book, hr, hbk, hres, _, hst, heq⟩
  · rw [heq]; exact hC
  · rw [heq]; exact hC
  · rw [heq]; exact hC
  · rw [heq]
    show Coupled (checkoutSuccessState now s r book)
    have h0 : r ∈ s.reservations := List.mem_of_find?_eq_some hr
    have hmem : book ∈ s.books := List.mem_of_find?_eq_some hbk
    have hpw : ∀ tid, liveFor tid (activeRow now r) = liveFor tid r := by
      intro tid
      simp [liveFor, activeRow, ReservationStatus.isLive, hst]
    have hstEquiv : (BookStatus.CHECKED_OUT = BookStatus.AVAILABLE ∨
        BookStatus.CHECKED_OUT = BookStatus.OVERDUE) ↔
        (book.status = BookStatus.AVAILABLE ∨ book.status = BookStatus.OVERDUE) := by
      rw [hres]
      simp
    exact coupled_keepReplace hWF hC h0 hmem hpw hstEquiv

theorem coupled_decline_user (rid uid : Nat) {s : LibraryState}
    (hWF : WF s) (hC : Coupled s) :
    Coupled (decline_reservation_user rid uid s).state := by
  rcases decline_user_cases rid uid s with
    ⟨_, heq⟩ | ⟨r, _, _, heq⟩ | ⟨r, _, _, _, heq⟩ | ⟨r, book, _, _, _, _, heq⟩ |
    ⟨r, book, _, _, _, _, _, _, _, heq⟩ |
    ⟨r, book, hr, _, hbk, _, _, hst, _, heq⟩
  · rw [heq]; exact hC
  · rw [heq]; exact hC
  · rw [heq]; exact hC
  · rw [heq]; exact hC
  · rw [heq]; exact hC
  · rw [heq]
    show Coupled (declineSuccessState s r book)
    have h0 : r ∈ s.reservations := List.mem_of_find?_eq_some hr
    have hmem : book ∈ s.books := List.mem_of_find?_eq_some hbk
    have hbid : book.id = r.book_id := by simpa using List.find?_some hbk
    have hw : ∀ tid, liveFor tid (cancelledRow r) = false := by
      intro tid
      simp [liveFor, cancelledRow, ReservationStatus.isLive]
    apply coupled_availReplace hWF hC h0 hmem hbid hw
    left
    have hbeq : (r.book_id == book.id) = true := by simp [hbid]
    rcases hst with h | h <;>
      simp [liveFor, hbeq, ReservationStatus.isLive, h]

theorem coupled_decline_librarian (rid : Nat) {s : LibraryState}
    (hWF : WF s) (hC : Coupled s)
    (hprov : ∀ r, findReservation s rid = some r →
      r.status.isLive = true ∨
        (findBook s r.book_id).map Book.status = some BookStatus.AVAILABLE) :
    Coupled (decline_reservation_by_librarian rid s).state := by
  rcases decline_librarian_cases rid s with
    ⟨_, heq⟩ | ⟨r, _, _, heq⟩ | ⟨r, book, _, _, _, heq⟩ |
    ⟨r, book, hr, hbk, _, _, _, heq⟩
  · rw [heq]; exact hC
  · rw [heq]; exact hC
  · rw [heq]; exact hC
  · rw [heq]
    show Coupled (declineSuccessState s r book)
    have h0 : r ∈ s.reservations := List.mem_of_find?_eq_some hr
    have hmem : book ∈ s.books := List.mem_of_find?_eq_some hbk
    have hbid : book.id = r.book_id := by simpa using List.find?_some hbk
    have hw : ∀ tid, liveFor tid (cancelledRow r) = false := by
      intro tid
      simp [liveFor, cancelledRow, ReservationStatus.isLive]
    apply coupled_availReplace hWF hC h0 hmem hbid hw
    rcases hprov r hr with hlv | hav
    · left
      have hbeq : (r.book_id == book.id) = true := by simp [hbid]
      simp [liveFor, hbeq, hlv]
    · right
      rw [hbk] at hav
      have hbav : book.status = BookStatus.AVAILABLE := by simpa using hav
      exact (hC book hmem).2.mp (Or.inl hbav)

theorem coupled_return (rid : Nat) {s : LibraryState}
    (hWF : WF s) (hC : Coupled s)
    (hprov : ∀ r, findReservation s rid = some r →
      r.status.isLive = true ∨
        (findBook s r.book_id).map Book.status = some BookStatus.OVERDUE) :
    Coupled (confirm_book_return_by_librarian rid s).state := by
  rcases return_cases rid s with
    ⟨_, heq⟩ | ⟨r, _, _, heq⟩ | ⟨r, book, _, _, _, _, heq⟩ |
    ⟨r, book, hr, hbk, _, _, heq⟩
  · rw [heq]; exact hC
  · rw [heq]; exact hC
  · rw [heq]; exact hC
  · rw [heq]
    show Coupled (returnSuccessState s r book)
    have h0 : r ∈ s.reservations := List.mem_of_find?_eq_some hr
    have hmem : book ∈ s.books := List.mem_of_find?_eq_some hbk
    have hbid : book.id = r.book_id := by simpa using List.find?_some hbk
    have hw : ∀ tid, liveFor tid (completedRow r) = false := by
      intro tid
      simp [liveFor, completedRow, ReservationStatus.isLive]
    apply coupled_availReplace hWF hC h0 hmem hbid hw
    rcases hprov r hr with hlv | hov
    · left
      have hbeq : (r.book_id == book.id) = true := by simp [hbid]
      simp [liveFor, hbeq, hlv]
    · right
      rw [hbk] at hov
      have hbov : book.status = BookStatus.OVERDUE := by simpa using hov
      exact (hC book hmem).2.mp (Or.inr hbov)

/-- Liveness of a reservation row after both sweep passes: still live
iff it was live and selected by neither pass. -/

theorem liveFor_sweepRow (now bid : Nat) (x : Reservation) :
    liveFor bid (pass2Row now (pass1Row now x)) =
      (liveFor bid x && !pass1Cond now x && !pass2Cond now x) := by
  by_cases h1 : pass1Cond now x = true
  · have hst : x.status = ReservationStatus.CONFIRMED := by
      unfold pass1Cond at h1
      simp only [Bool.and_eq_true, beq_iff_eq] at h1
      exact h1.2
    have hrow : pass1Row now x = { x with status := ReservationStatus.CANCELLED } := by
      unfold pass1Row
      rw [if_pos h1]
    rw [hrow]
    have h2 : pass2Cond now { x with status := ReservationStatus.CANCELLED } = false := by
      have hb : (ReservationStatus.CANCELLED == ReservationStatus.ACTIVE) = false := rfl
      simp [pass2Cond, expiredBefore, hb]
    have hrow2 : pass2Row now { x with status := ReservationStatus.CANCELLED } =
        { x with status := ReservationStatus.CANCELLED } := by
      unfold pass2Row
      rw [h2]
      simp
    rw [hrow2, h1]
    simp [liveFor, ReservationStatus.isLive]
  · have hrow : pass1Row now x = x := by
      unfold pass1Row
      rw [if_neg h1]
    rw [hrow]
    by_cases h2 : pass2Cond now x = true
    · have hrow2 : pass2Row now x = { x with status := ReservationStatus.EXPIRED } := by
        unfold pass2Row
        rw [if_pos h2]
      rw [hrow2, h2]
      simp [liveFor, ReservationStatus.isLive]
    · have hrow2 : pass2Row now x = x := by
        unfold pass2Row
        rw [if_neg h2]
      rw [hrow2]
      rw [Bool.not_eq_true] at h1 h2
      rw [h1, h2]
      simp

theorem coupled_sweep (now : Nat) {s : LibraryState}
    (hWF : WF s) (hC : Coupled s) :
    Coupled (check_and_cleanup_reservations now s).1 := by
  have hcnt : ∀ tid, liveCount (check_and_cleanup_reservations now s).1 tid =
      s.reservations.countP (fun x => liveFor tid (pass2Row now (pass1Row now x))) := by
    intro tid
    unfold liveCount
    rw [sweep_reservations, List.countP_map]
    rfl
  intro b' hb'
  rw [sweep_books] at hb'
  obtain ⟨b, hbm, rfl⟩ := List.mem_map.mp hb'
  rw [hcnt]
  by_cases hh2 : pass2Hits now s b.id = true
  · -- pass 2 overdues this book; its unique live reservation expires
    obtain ⟨r2, hr2m, hr2⟩ := List.any_eq_true.mp hh2
    have hr2c : pass2Cond now r2 = true := by
      simp only [Bool.and_eq_true] at hr2
      exact hr2.1
    have hr2b : (r2.book_id == b.id) = true := by
      simp only [Bool.and_eq_true] at hr2
      exact hr2.2
    have hr2live : liveFor b.id r2 = true := by
      have : r2.status = ReservationStatus.ACTIVE := by
        unfold pass2Cond at hr2c
        simp only [Bool.and_eq_true, beq_iff_eq] at hr2c
        exact hr2c.2
      simp [liveFor, hr2b, this, ReservationStatus.isLive]
    have hz : s.reservations.countP
        (fun x => liveFor ((sweepBook now s b).id) (pass2Row now (pass1Row now x))) = 0 := by
      have hbid : (sweepBook now s b).id = b.id := by
        unfold sweepBook
        split <;> first
          | rfl
          | exact pass1Book_id now s b
      rw [hbid, List.countP_eq_zero]
      intro x hx hcontra
      rw [liveFor_sweepRow] at hcontra
      simp only [Bool.and_eq_true, Bool.not_eq_true'] at hcontra
      obtain ⟨⟨hxl, _⟩, hxp2⟩ := hcontra
      by_cases hxe : x = r2
      · rw [hxe] at hxp2
        rw [hr2c] at hxp2
        cases hxp2
      · have := two_le_countP hx hr2m hxe hxl hr2live
        have hle := (hC b hbm).1
        unfold liveCount at hle
        omega
    rw [hz]
    have hbst : (sweepBook now s b).status = BookStatus.OVERDUE := by
      unfold sweepBook
      rw [if_pos hh2]
    constructor
    · omega
    · rw [hbst]
      simp
  · by_cases hh1 : pass1Hits now s b.id = true
    · -- pass 1 frees this book; its unique live reservation was the
      -- expired CONFIRMED one
      obtain ⟨r1, hr1m, hr1⟩ := List.any_eq_true.mp hh1
      have hr1c : pass1Cond now r1 = true := by
        simp only [Bool.and_eq_true] at hr1
        exact hr1.1
      have hr1b : (r1.book_id == b.id) = true := by
        simp only [Bool.and_eq_true] at hr1
        exact hr1.2
      have hr1live : liveFor b.id r1 = true := by
        have : r1.status = ReservationStatus.CONFIRMED := by
          unfold pass1Cond at hr1c
          simp only [Bool.and_eq_true, beq_iff_eq] at hr1c
          exact hr1c.2
        simp [liveFor, hr1b, this, ReservationStatus.isLive]
      have hz : s.reservations.countP
          (fun x => liveFor ((sweepBook now s b).id) (pass2Row now (pass1Row now x))) = 0 := by
        have hbid : (sweepBook now s b).id = b.id := by
          unfold sweepBook
          split <;> first
            | rfl
            | exact pass1Book_id now s b
        rw [hbid, List.countP_eq_zero]
        intro x hx hcontra
        rw [liveFor_sweepRow] at hcontra
        simp only [Bool.and_eq_true, Bool.not_eq_true'] at hcontra
        obtain ⟨⟨hxl, hxp1⟩, _⟩ := hcontra
        by_cases hxe : x = r1
        · rw [hxe] at hxp1
          rw [hr1c] at hxp1
          cases hxp1
        · have := two_le_countP hx hr1m hxe hxl hr1live
          have hle := (hC b hbm).1
          unfold liveCount at hle
          omega
      rw [hz]
      have hbst : (sweepBook now s b).status = BookStatus.AVAILABLE := by
        unfold sweepBook
        rw [if_neg (by simpa using hh2)]
        unfold pass1Book
        rw [if_pos hh1]
      constructor
      · omega
      · rw [hbst]
        simp
    · -- neither pass touches this book: row and counts unchanged
      have hbfix : sweepBook now s b = b := by
        unfold sweepBook
        rw [if_neg (by simpa using hh2)]
        unfold pass1Book
        rw [if_neg (by simpa using hh1)]
      rw [hbfix]
      have hcc : s.reservations.countP
          (fun x => liveFor b.id (pass2Row now (pass1Row now x))) =
          s.reservations.countP (liveFor b.id) := by
        apply List.countP_congr
        intro x hx
        rw [liveFor_sweepRow]
        cases hxl : liveFor b.id x with
        | false => simp
        | true =>
            have hxb : (x.book_id == b.id) = true := by
              unfold liveFor at hxl
              simp only [Bool.and_eq_true] at hxl
              exact hxl.1
            have hxp1 : pass1Cond now x = false := by
              cases hp : pass1Cond now x with
              | false => rfl
              | true =>
                  exfalso
                  apply (by simpa using hh1 : ¬ pass1Hits now s b.id = true)
                  exact List.any_eq_true.mpr ⟨x, hx, by rw [hp, hxb]; rfl⟩
            have hxp2 : pass2Cond now x = false := by
              cases hp : pass2Cond now x with
              | false => rfl
              | true =>
                  exfalso
                  apply (by simpa using hh2 : ¬ pass2Hits now s b.id = true)
                  exact List.any_eq_true.mpr ⟨x, hx, by rw [hp, hxb]; rfl⟩
            rw [hxp1, hxp2]
            simp
      rw [hcc]
      exact hC b hbm

/-! ### Idempotence of the sweep -/

theorem pass1Row_fix {now : Nat} {x : Reservation} (h : pass1Cond now x = false) :
    pass1Row now x = x := by
  unfold pass1Row
  rw [h]
  simp

theorem pass2Row_fix {now : Nat} {x : Reservation} (h : pass2Cond now x = false) :
    pass2Row now x = x := by
  unfold pass2Row
  rw [h]
  simp

/-- After both passes a row is never CONFIRMED-and-expired again. -/

theorem pass1Cond_sweepRow (now : Nat) (x : Reservation) :
    pass1Cond now (pass2Row now (pass1Row now x)) = false := by
  by_cases h1 : pass1Cond now x = true
  · have hrow : pass1Row now x = { x with status := ReservationStatus.CANCELLED } := by
      unfold pass1Row
      rw [if_pos h1]
    rw [hrow]
    have h2 : pass2Cond now { x with status := ReservationStatus.CANCELLED } = false := by
      have hb : (ReservationStatus.CANCELLED == ReservationStatus.ACTIVE) = false := rfl
      simp [pass2Cond, expiredBefore, hb]
    rw [pass2Row_fix h2]
    have hb : (ReservationStatus.CANCELLED == ReservationStatus.CONFIRMED) = false := rfl
    simp [pass1Cond, expiredBefore, hb]
  · rw [Bool.not_eq_true] at h1
    rw [pass1Row_fix h1]
    by_cases h2 : pass2Cond now x = true
    · have hrow : pass2Row now x = { x with status := ReservationStatus.EXPIRED } := by
        unfold pass2Row
        rw [if_pos h2]
      rw [hrow]
      have hb : (ReservationStatus.EXPIRED == ReservationStatus.CONFIRMED) = false := rfl
      simp [pass1Cond, expiredBefore, hb]
    · rw [Bool.not_eq_true] at h2
      rw [pass2Row_fix h2]
      exact h1

/-- After both passes a row is never ACTIVE-and-expired again. -/

theorem pass2Cond_sweepRow (now : Nat) (x : Reservation) :
    pass2Cond now (pass2Row now (pass1Row now x)) = false := by
  by_cases h1 : pass1Cond now x = true
  · have hrow : pass1Row now x = { x with status := ReservationStatus.CANCELLED } := by
      unfold pass1Row
      rw [if_pos h1]
    rw [hrow]
    have h2 : pass2Cond now { x with status := ReservationStatus.CANCELLED } = false := by
      have hb : (ReservationStatus.CANCELLED == ReservationStatus.ACTIVE) = false := rfl
      simp [pass2Cond, expiredBefore, hb]
    rw [pass2Row_fix h2]
    exact h2
  · rw [Bool.not_eq_true] at h1
    rw [pass1Row_fix h1]
    by_cases h2 : pass2Cond now x = true
    · have hrow : pass2Row now x = { x with status := ReservationStatus.EXPIRED } := by
        unfold pass2Row
        rw [if_pos h2]
      rw [hrow]
      have hb : (ReservationStatus.EXPIRED == ReservationStatus.ACTIVE) = false := rfl
      simp [pass2Cond, expiredBefore, hb]
    · rw [Bool.not_eq_true] at h2
      rw [pass2Row_fix h2]
      exact h2

theorem sweep_rows_settled (now : Nat) (s : LibraryState) :
    ∀ y ∈ (check_and_cleanup_reservations now s).1.reservations,
      pass1Cond now y = false ∧ pass2Cond now y = false := by
  intro y hy
  rw [sweep_reservations] at hy
  obtain ⟨x, _, rfl⟩ := List.mem_map.mp hy
  exact ⟨pass1Cond_sweepRow now x, pass2Cond_sweepRow now x⟩

theorem sweep_hits_settled (now : Nat) (s : LibraryState) (bid : Nat) :
    pass1Hits now (check_and_cleanup_reservations now s).1 bid = false ∧
    pass2Hits now (check_and_cleanup_reservations now s).1 bid = false := by
  constructor
  · cases hv : pass1Hits now (check_and_cleanup_reservations now s).1 bid with
    | false => rfl
    | true =>
        obtain ⟨y, hy, hcond⟩ := List.any_eq_true.mp hv
        rw [(sweep_rows_settled now s y hy).1] at hcond
        simp at hcond
  · cases hv : pass2Hits now (check_and_cleanup_reservations now s).1 bid with
    | false => rfl
    | true =>
        obtain ⟨y, hy, hcond⟩ := List.any_eq_true.mp hv
        rw [(sweep_rows_settled now s y hy).2] at hcond
        simp at hcond

theorem pass1State_fix (now : Nat) (s : LibraryState) :
    pass1State now (check_and_cleanup_reservations now s).1 =
      (check_and_cleanup_reservations now s).1 := by
  apply state_ext
  · show ((check_and_cleanup_reservations now s).1.books.map _) = _
    have h : ∀ b ∈ (check_and_cleanup_reservations now s).1.books,
        pass1Book now (check_and_cleanup_reservations now s).1 b = b := by
      intro b _
      unfold pass1Book
      rw [show pass1Hits now (check_and_cleanup_reservations now s).1 b.id = false from
        (sweep_hits_settled now s b.id).1]
      simp
    rw [List.map_congr_left h]
    simp
  · show ((check_and_cleanup_reservations now s).1.reservations.map _) = _
    have h : ∀ y ∈ (check_and_cleanup_reservations now s).1.reservations,
        pass1Row now y = y := by
      intro y hy
      exact pass1Row_fix (sweep_rows_settled now s y hy).1
    rw [List.map_congr_left h]
    simp
  · rfl
  · rfl

theorem pass2State_fix (now : Nat) (s : LibraryState) :
    pass2State now (check_and_cleanup_reservations now s).1 =
      (check_and_cleanup_reservations now s).1 := by
  apply state_ext
  · show ((check_and_cleanup_reservations now s).1.books.map _) = _
    have h : ∀ b ∈ (check_and_cleanup_reservations now s).1.books,
        pass2Book now (check_and_cleanup_reservations now s).1 b = b := by
      intro b _
      unfold pass2Book
      rw [show pass2Hits now (check_and_cleanup_reservations now s).1 b.id = false from
        (sweep_hits_settled now s b.id).2]
      simp
    rw [List.map_congr_left h]
    simp
  · show ((check_and_cleanup_reservations now s).1.reservations.map _) = _
    have h : ∀ y ∈ (check_and_cleanup_reservations now s).1.reservations,
        pass2Row now y = y := by
      intro y hy
      exact pass2Row_fix (sweep_rows_settled now s y hy).2
    rw [List.map_congr_left h]
    simp
  · rfl
  · rfl

theorem pass3State_fix (now : Nat) (s : LibraryState) :
    pass3State (check_and_cleanup_reservations now s).1 =
      (check_and_cleanup_reservations now s).1 := by
  apply state_ext
  · rfl
  · rfl
  · show ((check_and_cleanup_reservations now s).1.users.map _) = _
    have husers : (check_and_cleanup_reservations now s).1.users =
        (pass2State now (pass1State now s)).users.map
          (pass3Row (pass2State now (pass1State now s))) := sweep_users now s
    rw [husers, List.map_map]
    apply List.map_congr_left
    intro u _
    simp only [Function.comp_apply]
    by_cases hc : pass3Cond (pass2State now (pass1State now s)) u = true
    · have hrow : pass3Row (pass2State now (pass1State now s)) u =
          { u with is_blocked := true } := by
        unfold pass3Row
        rw [if_pos hc]
      rw [hrow]
      unfold pass3Row pass3Cond
      simp
    · have hrow : pass3Row (pass2State now (pass1State now s)) u = u := by
        unfold pass3Row
        rw [if_neg hc]
      rw [hrow]
      unfold pass3Row
      rw [if_neg]
      intro hcc
      apply hc
      exact hcc
  · rfl


/-- C4, counterexample: on a fresh store, create_reservation stores
`expires_at = now + 5 days`, not null — the pickup deadline is set at
creation time (and the column is declared `nullable=False`). -/
theorem C4_counterexample :
    (create_reservation 1000 1 1 exC4).view?.map (fun v => v.row.expires_at) =
      some (some (1000 + 5 * 86400)) ∧
    (create_reservation 1000 1 1 exC4).view?.map (fun v => v.row.expires_at) ≠
      some none := by
  constructor
  · rfl
  · intro h
    simp [create_reservation, check_and_block_user, exC4, findUser, findBook,
      overdueLinkedCount, quotaCount, OpResult.view?] at h

/-- C4 (amended): a successful create_reservation returns a PENDING
reservation for the requested book and user with
`expires_at = now + 5 days` (never null), inserts it into the store,
and sets the book RESERVED. -/

theorem C4_theorem (now uid bid : Nat) (s st' : LibraryState) (v : ReservationView)
    (h : create_reservation now uid bid s = .ok st' v) :
    v.row.status = ReservationStatus.PENDING ∧
    v.row.expires_at = some (now + 5 * 86400) ∧
    v.row.user_id = uid ∧
    v.row.book_id = bid ∧
    (findBook st' bid).map Book.status = some BookStatus.RESERVED ∧
    v.row ∈ st'.reservations := by
  rcases create_reservation_cases now uid bid s with
    ⟨_, heq⟩ | ⟨u, _, _, heq⟩ | ⟨u, _, _, _, heq⟩ | ⟨u, _, _, _, _, heq⟩ |
    ⟨u, _, _, _, _, _, heq⟩ | ⟨u, book, r₀, _, _, _, _, _, _, heq⟩ |
    ⟨u, book, _, _, _, _, _, _, _, heq⟩ |
    ⟨u, book, _, _, _, _, hbk, hex, hav, heq⟩
  · rw [heq] at h; exact OpResult.noConfusion h
  · rw [heq] at h; exact OpResult.noConfusion h
  · rw [heq] at h; exact OpResult.noConfusion h
  · rw [heq] at h; exact OpResult.noConfusion h
  · rw [heq] at h; exact OpResult.noConfusion h
  · rw [heq] at h; exact OpResult.noConfusion h
  · rw [heq] at h; exact OpResult.noConfusion h
  rw [heq] at h
  have hst : createSuccessState now uid s book = st' := by
    injection h
  have hv : ReservationView.mk (createdRow now uid s book) none = v := by
    injection h
  subst hst
  subst hv
  have hbid : book.id = bid := by simpa using List.find?_some hbk
  refine ⟨rfl, rfl, rfl, hbid, ?_, ?_⟩
  · have hfb : findBook (createSuccessState now uid s book) bid =
        findBook (mapBookById s book.id
          (fun b => { b with status := BookStatus.RESERVED })) bid := rfl
    rw [hfb, findBook_mapBookById s book.id bid
      (fun b => { b with status := BookStatus.RESERVED }) (fun b => rfl), hbk]
    simp
  · show createdRow now uid s book ∈ s.reservations ++ [createdRow now uid s book]
    exact List.mem_append_right _ (List.mem_singleton.mpr rfl)

/-- C4, witness: the amended statement holds on the concrete store. -/

theorem C4_witness :
    (create_reservation 1000 1 1 exC4 =
      OpResult.ok (createSuccessState 1000 1 exC4 ⟨1, "b", BookStatus.AVAILABLE⟩)
        { row := createdRow 1000 1 exC4 ⟨1, "b", BookStatus.AVAILABLE⟩,
          cancelled_by := none }) ∧
    ((createdRow 1000 1 exC4 ⟨1, "b", BookStatus.AVAILABLE⟩).status =
        ReservationStatus.PENDING ∧
      (createdRow 1000 1 exC4 ⟨1, "b", BookStatus.AVAILABLE⟩).expires_at =
        some (1000 + 5 * 86400) ∧
      (createdRow 1000 1 exC4 ⟨1, "b", BookStatus.AVAILABLE⟩).user_id = 1 ∧
      (createdRow 1000 1 exC4 ⟨1, "b", BookStatus.AVAILABLE⟩).book_id = 1 ∧
      (findBook (createSuccessState 1000 1 exC4 ⟨1, "b", BookStatus.AVAILABLE⟩) 1).map
          Book.status = some BookStatus.RESERVED ∧
      createdRow 1000 1 exC4 ⟨1, "b", BookStatus.AVAILABLE⟩ ∈
        (createSuccessState 1000 1 exC4 ⟨1, "b", BookStatus.AVAILABLE⟩).reservations) :=
  ⟨by decide, C4_theorem 1000 1 1 exC4
    (createSuccessState 1000 1 exC4 ⟨1, "b", BookStatus.AVAILABLE⟩)
    { row := createdRow 1000 1 exC4 ⟨1, "b", BookStatus.AVAILABLE⟩,
      cancelled_by := none } (by decide)⟩

/-- C3, counterexample: the sweep auto-cancels the expired CONFIRMED
reservation but assigns no cancelled_by at all — the stored model has no
such column, so a fresh load yields None, not "system". -/
theorem C3_counterexample :
    ((check_and_cleanup_reservations 100 exC3).1.reservations.map
      (fun r => (r.status, (loadReservation r).cancelled_by))) =
      [(ReservationStatus.CANCELLED, (none : Option String))] ∧
    (some "system" : Option String) ≠ none := by
  exact ⟨by decide, by decide⟩

/-- C3 (amended): decline by the reader returns a reservation object
carrying cancelled_by = "user" and decline by the librarian one carrying
"librarian", but the value lives only on the returned object — the
Reservation model has no cancelled_by column, so every reservation
re-loaded from the store has cancelled_by = None — and the auto-cancellation
of the sweep assigns no cancelled_by at all. -/

theorem C3_theorem (now rid rid₂ uid : Nat) (s s₂ st' st₂' : LibraryState)
    (v v₂ : ReservationView)
    (hu : decline_reservation_user rid uid s = .ok st' v)
    (hl : decline_reservation_by_librarian rid₂ s₂ = .ok st₂' v₂) :
    (v.cancelled_by = some "user" ∧ v.row.status = ReservationStatus.CANCELLED ∧
      ∀ r ∈ st'.reservations, (loadReservation r).cancelled_by = none) ∧
    (v₂.cancelled_by = some "librarian" ∧
      v₂.row.status = ReservationStatus.CANCELLED ∧
      ∀ r ∈ st₂'.reservations, (loadReservation r).cancelled_by = none) ∧
    (∀ r ∈ (check_and_cleanup_reservations now s).1.reservations,
      (loadReservation r).cancelled_by = none) := by
  refine ⟨?_, ?_, fun r _ => rfl⟩
  · rcases decline_user_cases rid uid s with
      ⟨_, heq⟩ | ⟨r, _, _, heq⟩ | ⟨r, _, _, _, heq⟩ | ⟨r, book, _, _, _, _, heq⟩ |
      ⟨r, book, _, _, _, _, _, _, _, heq⟩ | ⟨r, book, _, _, _, _, _, _, _, heq⟩
    · rw [heq] at hu; exact OpResult.noConfusion hu
    · rw [heq] at hu; exact OpResult.noConfusion hu
    · rw [heq] at hu; exact OpResult.noConfusion hu
    · rw [heq] at hu; exact OpResult.noConfusion hu
    · rw [heq] at hu; exact OpResult.noConfusion hu
    · rw [heq] at hu
      have hv : ReservationView.mk (cancelledRow r) (some "user") = v := by
        injection hu
      subst hv
      exact ⟨rfl, rfl, fun r _ => rfl⟩
  · rcases decline_librarian_cases rid₂ s₂ with
      ⟨_, heq⟩ | ⟨r, _, _, heq⟩ | ⟨r, book, _, _, _, heq⟩ |
      ⟨r, book, _, _, _, _, _, heq⟩
    · rw [heq] at hl; exact OpResult.noConfusion hl
    · rw [heq] at hl; exact OpResult.noConfusion hl
    · rw [heq] at hl; exact OpResult.noConfusion hl
    · rw [heq] at hl
      have hv : ReservationView.mk (cancelledRow r) (some "librarian") = v₂ := by
        injection hl
      subst hv
      exact ⟨rfl, rfl, fun r _ => rfl⟩

/-- C3, witness: concrete successful declines by reader and librarian. -/

theorem C3_witness :
    (decline_reservation_user 1 1 exPending =
      OpResult.ok
        (declineSuccessState exPending ⟨1, 1, 1, ReservationStatus.PENDING, some 0⟩
          ⟨1, "b", BookStatus.RESERVED⟩)
        { row := cancelledRow ⟨1, 1, 1, ReservationStatus.PENDING, some 0⟩,
          cancelled_by := some "user" }) ∧
    (decline_reservation_by_librarian 1 exPending =
      OpResult.ok
        (declineSuccessState exPending ⟨1, 1, 1, ReservationStatus.PENDING, some 0⟩
          ⟨1, "b", BookStatus.RESERVED⟩)
        { row := cancelledRow ⟨1, 1, 1, ReservationStatus.PENDING, some 0⟩,
          cancelled_by := some "librarian" }) ∧
    ((some "user" : Option String) = some "user" ∧
      (cancelledRow ⟨1, 1, 1, ReservationStatus.PENDING, some 0⟩).status =
        ReservationStatus.CANCELLED ∧
      ∀ r ∈ (declineSuccessState exPending ⟨1, 1, 1, ReservationStatus.PENDING, some 0⟩
          ⟨1, "b", BookStatus.RESERVED⟩).reservations,
        (loadReservation r).cancelled_by = none) := by
  refine ⟨by decide, by decide, ?_⟩
  exact (C3_theorem 100 1 1 1 exPending exPending
    (declineSuccessState exPending ⟨1, 1, 1, ReservationStatus.PENDING, some 0⟩
      ⟨1, "b", BookStatus.RESERVED⟩)
    (declineSuccessState exPending ⟨1, 1, 1, ReservationStatus.PENDING, some 0⟩
      ⟨1, "b", BookStatus.RESERVED⟩)
    { row := cancelledRow ⟨1, 1, 1, ReservationStatus.PENDING, some 0⟩,
      cancelled_by := some "user" }
    { row := cancelledRow ⟨1, 1, 1, ReservationStatus.PENDING, some 0⟩,
      cancelled_by := some "librarian" }
    (by decide) (by decide)).1

/-- C9, counterexample: checkout on an existing reservation that is
PENDING (not CONFIRMED) answers the 404 "Reservation not found or not
eligible for confirmation" outcome — a NotFound, not a Conflict. -/

theorem C9_counterexample :
    (findReservation exPending 1).map Reservation.status =
      some ReservationStatus.PENDING ∧
    confirm_book_checkout_by_librarian 500 1 exPending =
      .err exPending checkoutNotFoundError ∧
    checkoutNotFoundError.status_code = 404 ∧
    reservationNotFoundError.status_code = 404 := by
  exact ⟨by decide, by decide, rfl, rfl⟩

/-- C9 (amended): the endpoints answer distinct (status code, detail)
pairs — quota (400), already-reserved / unavailable (400, different
details), blocked (403), missing book (404) — but checkout folds an
existing non-CONFIRMED reservation into the same 404 outcome as a
missing reservation, rather than a distinct Conflict. -/

theorem C9_theorem (now rid : Nat) (s : LibraryState) (r : Reservation)
    (hWF : WF s) (hr : findReservation s rid = some r)
    (hst : r.status ≠ ReservationStatus.CONFIRMED) :
    confirm_book_checkout_by_librarian now rid s = .err s checkoutNotFoundError ∧
    checkoutNotFoundError.status_code = 404 ∧
    limitExceededError ≠ alreadyReservedError ∧
    (∀ bst : BookStatus, limitExceededError ≠ notAvailableError bst) ∧
    blockedAccountError.status_code = 403 ∧
    overdueBlockedError.status_code = 403 ∧
    bookNotFoundError.status_code = 404 ∧
    limitExceededError.status_code = 400 ∧
    alreadyReservedError.status_code = 400 := by
  have hmem : r ∈ s.reservations := List.mem_of_find?_eq_some hr
  have hrid : r.id = rid := by simpa using List.find?_some hr
  have hfind : s.reservations.find? (fun x =>
      x.id == rid && x.status == ReservationStatus.CONFIRMED) = none := by
    rw [List.find?_eq_none]
    intro x hx hcontra
    simp only [Bool.and_eq_true, beq_iff_eq] at hcontra
    have hx2 : x = r := eq_of_nodup_key hWF.2.1 hx hmem (by rw [hcontra.1, hrid])
    rw [hx2] at hcontra
    exact hst hcontra.2
  refine ⟨?_, rfl, by decide, ?_, rfl, rfl, rfl, rfl, rfl⟩
  · simp [confirm_book_checkout_by_librarian, hfind, checkoutNotFoundError]
  · intro bst
    cases bst <;> decide

/-- C9, witness: the conflation at the concrete PENDING store. -/

theorem C9_witness :
    (WF exPending ∧
      findReservation exPending 1 =
        some ⟨1, 1, 1, ReservationStatus.PENDING, some 0⟩ ∧
      (⟨1, 1, 1, ReservationStatus.PENDING, some 0⟩ : Reservation).status ≠
        ReservationStatus.CONFIRMED) ∧
    confirm_book_checkout_by_librarian 500 1 exPending =
      .err exPending checkoutNotFoundError := by
  refine ⟨⟨by decide, by decide, by decide⟩, ?_⟩
  exact (C9_theorem 500 1 exPending ⟨1, 1, 1, ReservationStatus.PENDING, some 0⟩
    (by decide) (by decide) (by decide)).1

theorem pass1Cond_terminal (now : Nat) {r : Reservation}
    (ht : r.status.isTerminal = true) : pass1Cond now r = false := by
  unfold pass1Cond
  cases hs : r.status
  · rw [hs] at ht; exact absurd ht (by decide)
  · rw [hs] at ht; exact absurd ht (by decide)
  · simp [show (ReservationStatus.CANCELLED == ReservationStatus.CONFIRMED) = false
      from rfl]
  · rw [hs] at ht; exact absurd ht (by decide)
  · simp [show (ReservationStatus.COMPLETED == ReservationStatus.CONFIRMED) = false
      from rfl]
  · simp [show (ReservationStatus.EXPIRED == ReservationStatus.CONFIRMED) = false
      from rfl]

theorem pass2Cond_terminal (now : Nat) {r : Reservation}
    (ht : r.status.isTerminal = true) : pass2Cond now r = false := by
  unfold pass2Cond
  cases hs : r.status
  · rw [hs] at ht; exact absurd ht (by decide)
  · rw [hs] at ht; exact absurd ht (by decide)
  · simp [show (ReservationStatus.CANCELLED == ReservationStatus.ACTIVE) = false
      from rfl]
  · rw [hs] at ht; exact absurd ht (by decide)
  · simp [show (ReservationStatus.COMPLETED == ReservationStatus.ACTIVE) = false
      from rfl]
  · simp [show (ReservationStatus.EXPIRED == ReservationStatus.ACTIVE) = false
      from rfl]

/-- C1, counterexample: confirm_book_return_by_librarian checks only the
status of the book, so it moves an EXPIRED (terminal) reservation to
COMPLETED — a further transition out of a terminal status. -/
theorem C1_counterexample :
    (findReservation exC1 1).map Reservation.status =
      some ReservationStatus.EXPIRED ∧
    ReservationStatus.EXPIRED.isTerminal = true ∧
    (confirm_book_return_by_librarian 1 exC1).isOk = true ∧
    (findReservation (confirm_book_return_by_librarian 1 exC1).state 1).map
      Reservation.status = some ReservationStatus.COMPLETED := by
  exact ⟨by decide, by decide, by decide, by decide⟩

/-- C1 (amended): a reservation in a terminal status (CANCELLED,
COMPLETED, EXPIRED) keeps that status across createReservation,
librarian confirm, checkout, decline-by-user, and the reconciliation
sweep; only decline-by-librarian and returnBook, which never check the
status of the reservation itself, can move a terminal reservation (to CANCELLED
resp. COMPLETED). -/

theorem C1_theorem (now rid uid bid : Nat) (s : LibraryState) (r : Reservation)
    (hWF : WF s) (hr : r ∈ s.reservations) (ht : r.status.isTerminal = true) :
    (∀ r' ∈ (create_reservation now uid bid s).state.reservations,
      r'.id = r.id → r'.status = r.status) ∧
    (∀ r' ∈ (confirm_reservation_by_librarian now rid s).state.reservations,
      r'.id = r.id → r'.status = r.status) ∧
    (∀ r' ∈ (confirm_book_checkout_by_librarian now rid s).state.reservations,
      r'.id = r.id → r'.status = r.status) ∧
    (∀ r' ∈ (decline_reservation_user rid uid s).state.reservations,
      r'.id = r.id → r'.status = r.status) ∧
    (∀ r' ∈ (check_and_cleanup_reservations now s).1.reservations,
      r'.id = r.id → r'.status = r.status) := by
  have base : ∀ r' ∈ s.reservations, r'.id = r.id → r'.status = r.status := by
    intro r' h' hid
    rw [eq_of_nodup_key hWF.2.1 h' hr hid]
  refine ⟨?_, ?_, ?_, ?_, ?_⟩
  · rcases create_reservation_cases now uid bid s with
      ⟨_, heq⟩ | ⟨u, _, _, heq⟩ | ⟨u, _, _, _, heq⟩ | ⟨u, _, _, _, _, heq⟩ |
      ⟨u, _, _, _, _, _, heq⟩ | ⟨u, book, r₀, _, _, _, _, _, _, heq⟩ |
      ⟨u, book, _, _, _, _, _, _, _, heq⟩ |
      ⟨u, book, _, _, _, _, hbk, hex, hav, heq⟩
    · rw [heq]; exact base
    · rw [heq]; exact base
    · rw [heq]; exact base
    · rw [heq]; exact base
    · rw [heq]; exact base
    · rw [heq]; exact base
    · rw [heq]; exact base
    · rw [heq]
      intro r' h' hid
      have h'' : r' ∈ s.reservations ++ [createdRow now uid s book] := h'
      rcases List.mem_append.mp h'' with hmem | hnew
      · exact base r' hmem hid
      · have : r' = createdRow now uid s book := List.mem_singleton.mp hnew
        rw [this] at hid
        have hlt := hWF.2.2 r hr
        have : s.nextReservationId = r.id := hid
        omega
  · rcases confirm_cases now rid s with
      ⟨_, heq⟩ | ⟨r₀, _, _, heq⟩ | ⟨r₀, _, _, _, heq⟩ | ⟨r₀, book, _, _, _, _, heq⟩ |
      ⟨r₀, book, hr₀, hp, _, _, _, heq⟩
    · rw [heq]; exact base
    · rw [heq]; exact base
    · rw [heq]; exact base
    · rw [heq]; exact base
    · rw [heq]
      intro r' h' hid
      have h'' : r' ∈ s.reservations.map
          (fun x => if x.id == rid then confirmedRow now r₀ else x) := h'
      obtain ⟨x, hx, rfl⟩ := List.mem_map.mp h''
      by_cases hxe : (x.id == rid) = true
      · rw [if_pos hxe] at hid ⊢
        have hr₀m : r₀ ∈ s.reservations := List.mem_of_find?_eq_some hr₀
        have hr₀r : r₀ = r := eq_of_nodup_key hWF.2.1 hr₀m hr hid
        rw [hr₀r] at hp
        rw [hp] at ht
        exact absurd ht (by decide)
      · rw [if_neg hxe] at hid ⊢
        exact base x hx hid
  · rcases checkout_cases now rid s with
      ⟨_, heq⟩ | ⟨r₀, _, _, heq⟩ | ⟨r₀, book, _, _, _, heq⟩ |
      ⟨r₀, book, hr₀, hbk, hres, _, hcs, heq⟩
    · rw [heq]; exact base
    · rw [heq]; exact base
    · rw [heq]; exact base
    · rw [heq]
      intro r' h' hid
      have h'' : r' ∈ s.reservations.map
          (fun x => if x.id == r₀.id then activeRow now r₀ else x) := h'
      obtain ⟨x, hx, rfl⟩ := List.mem_map.mp h''
      by_cases hxe : (x.id == r₀.id) = true
      · rw [if_pos hxe] at hid ⊢
        have hr₀m : r₀ ∈ s.reservations := List.mem_of_find?_eq_some hr₀
        have hr₀r : r₀ = r := eq_of_nodup_key hWF.2.1 hr₀m hr hid
        rw [hr₀r] at hcs
        rw [hcs] at ht
        exact absurd ht (by decide)
      · rw [if_neg hxe] at hid ⊢
        exact base x hx hid
  · rcases decline_user_cases rid uid s with
      ⟨_, heq⟩ | ⟨r₀, _, _, heq⟩ | ⟨r₀, _, _, _, heq⟩ | ⟨r₀, book, _, _, _, _, heq⟩ |
      ⟨r₀, book, _, _, _, _, _, _, _, heq⟩ |
      ⟨r₀, book, hr₀, _, hbk, _, _, hst, _, heq⟩
    · rw [heq]; exact base
    · rw [heq]; exact base
    · rw [heq]; exact base
    · rw [heq]; exact base
    · rw [heq]; exact base
    · rw [heq]
      intro r' h' hid
      have h'' : r' ∈ (mapBookById s book.id
          (fun b => { b with status := BookStatus.AVAILABLE })).reservations.map
          (fun x => if x.id == r₀.id then cancelledRow r₀ else x) := h'
      obtain ⟨x, hx, rfl⟩ := List.mem_map.mp h''
      have hx' : x ∈ s.reservations := hx
      by_cases hxe : (x.id == r₀.id) = true
      · rw [if_pos hxe] at hid ⊢
        have hr₀m : r₀ ∈ s.reservations := List.mem_of_find?_eq_some hr₀
        have hr₀r : r₀ = r := eq_of_nodup_key hWF.2.1 hr₀m hr hid
        rw [hr₀r] at hst
        rcases hst with h | h <;> rw [h] at ht <;> exact absurd ht (by decide)
      · rw [if_neg hxe] at hid ⊢
        exact base x hx' hid
  · intro r' h' hid
    rw [sweep_reservations] at h'
    obtain ⟨x, hx, rfl⟩ := List.mem_map.mp h'
    have hxid : x.id = r.id := by
      rw [← hid, pass2Row_id, pass1Row_id]
    have hxr : x = r := eq_of_nodup_key hWF.2.1 hx hr hxid
    rw [hxr, pass1Row_fix (pass1Cond_terminal now ht),
      pass2Row_fix (pass2Cond_terminal now ht)]

/-- C1, witness: the five listed operations leave the EXPIRED
reservation of the concrete store untouched. -/

theorem C1_witness :
    (WF exC1 ∧
      (⟨1, 1, 1, ReservationStatus.EXPIRED, some 0⟩ : Reservation) ∈
        exC1.reservations ∧
      (ReservationStatus.EXPIRED).isTerminal = true) ∧
    (∀ r' ∈ (create_reservation 100 1 1 exC1).state.reservations,
      r'.id = 1 → r'.status = ReservationStatus.EXPIRED) := by
  refine ⟨⟨by decide, by decide, by decide⟩, ?_⟩
  have h := (C1_theorem 100 1 1 1 exC1 ⟨1, 1, 1, ReservationStatus.EXPIRED, some 0⟩
    (by decide) (by decide) (by decide)).1
  exact h

/-- C6, counterexample: a blocked user with 3 counted reservations is
rejected with the blocked-account 403, not with LimitExceeded, so the
count being at least 3 does not by itself determine a LimitExceeded
failure. -/
theorem C6_counterexample :
    3 ≤ quotaCount exC6 1 ∧
    create_reservation 100 1 7 exC6 = .err exC6 blockedAccountError ∧
    blockedAccountError ≠ limitExceededError := by
  exact ⟨by decide, by decide, by decide⟩

/-- C6 (amended): for an existing user who passes the blocked check and
the delinquency check (fewer than 2 overdue-linked reservations),
create_reservation fails with LimitExceeded exactly when the user's
count of PENDING/CONFIRMED/ACTIVE/EXPIRED reservations is at least 3;
and below the quota the same request succeeds whenever the book exists,
is AVAILABLE and carries no PENDING/CONFIRMED reservation. -/

theorem C6_theorem (now uid bid : Nat) (s : LibraryState) (u : User)
    (hu : findUser s uid = some u) (hb : u.is_blocked = false)
    (hod : overdueLinkedCount s uid < 2) :
    ((create_reservation now uid bid s).error? = some limitExceededError ↔
      3 ≤ quotaCount s uid) ∧
    (∀ book, quotaCount s uid < 3 → findBook s bid = some book →
      book.status = BookStatus.AVAILABLE →
      s.reservations.find? (fun x =>
        x.book_id == book.id && (x.status == ReservationStatus.PENDING ||
          x.status == ReservationStatus.CONFIRMED)) = none →
      (create_reservation now uid bid s).isOk = true) := by
  rcases create_reservation_cases now uid bid s with
    ⟨hn, heq⟩ | ⟨u', hu', hb', heq⟩ | ⟨u', hu', _, hod', heq⟩ |
    ⟨u', hu', _, _, hq, heq⟩ | ⟨u', hu', _, _, hq, hbk, heq⟩ |
    ⟨u', book', r₀, hu', _, _, hq, hbk, hex, heq⟩ |
    ⟨u', book', hu', _, _, hq, hbk, hex, hav, heq⟩ |
    ⟨u', book', hu', _, _, hq, hbk, hex, hav, heq⟩
  · rw [hu] at hn; exact Option.noConfusion hn
  · rw [hu] at hu'
    have : u = u' := Option.some.inj hu'
    rw [← this] at hb'
    rw [hb] at hb'
    exact Bool.noConfusion hb'
  · omega
  · constructor
    · rw [heq]
      exact ⟨fun _ => hq, fun _ => rfl⟩
    · intro book hqlt _ _ _
      omega
  · constructor
    · rw [heq]
      refine ⟨fun hcontra => ?_, fun hcontra => ?_⟩
      · exact absurd (Option.some.inj hcontra) (by decide)
      · omega
    · intro book _ hbook _ _
      rw [hbk] at hbook
      exact Option.noConfusion hbook
  · constructor
    · rw [heq]
      refine ⟨fun hcontra => ?_, fun hcontra => ?_⟩
      · exact absurd (Option.some.inj hcontra) (by decide)
      · omega
    · intro book _ hbook hbav hbex
      rw [hbk] at hbook
      have : book' = book := Option.some.inj hbook
      rw [this] at hex
      rw [hbex] at hex
      exact Option.noConfusion hex
  · constructor
    · rw [heq]
      refine ⟨fun hcontra => ?_, fun hcontra => ?_⟩
      · exfalso
        have hthis := Option.some.inj hcontra
        cases hbs : book'.status <;> rw [hbs] at hthis <;>
          exact absurd hthis (by decide)
      · omega
    · intro book _ hbook hbav _
      rw [hbk] at hbook
      have : book' = book := Option.some.inj hbook
      rw [this] at hav
      exact absurd hbav hav
  · constructor
    · rw [heq]
      refine ⟨fun hcontra => Option.noConfusion hcontra, fun hcontra => ?_⟩
      · omega
    · intro book _ _ _ _
      rw [heq]
      rfl

/-- C6, witness: at the concrete store the limit failure occurs exactly
because the count is 3. -/

theorem C6_witness :
    (findUser exC6w 1 = some ⟨1, "u", false⟩ ∧
      (⟨1, "u", false⟩ : User).is_blocked = false ∧
      overdueLinkedCount exC6w 1 < 2) ∧
    ((create_reservation 100 1 1 exC6w).error? = some limitExceededError ↔
      3 ≤ quotaCount exC6w 1) := by
  refine ⟨⟨by decide, by decide, by decide⟩, ?_⟩
  exact (C6_theorem 100 1 1 exC6w ⟨1, "u", false⟩ (by decide) (by decide)
    (by decide)).1

/-- C10, counterexample: an at-the-limit user who is not blocked but has
two overdue-linked reservations gets Forbidden (blocked during the
call), not LimitExceeded, even though the requested book does not
exist. -/
theorem C10_counterexample :
    3 ≤ quotaCount exC10 1 ∧
    (findUser exC10 1).map User.is_blocked = some false ∧
    findBook exC10 999 = none ∧
    create_reservation 100 1 999 exC10 =
      .err (blockCaller exC10 1) overdueBlockedError ∧
    overdueBlockedError ≠ limitExceededError := by
  exact ⟨by decide, by decide, by decide, by decide, by decide⟩

/-- C10 (amended): create_reservation runs the blocked check, then the
delinquency check, then the quota count, all before the book lookup: a
blocked user gets Forbidden regardless of the book; a delinquent
not-yet-blocked user is blocked during the call and gets Forbidden; an
over-quota user who passes both gets LimitExceeded even for a missing
book; and an over-quota user never observes a 404. -/

theorem C10_theorem (now uid bid : Nat) (s : LibraryState) (u : User)
    (hu : findUser s uid = some u) :
    (u.is_blocked = true →
      create_reservation now uid bid s = .err s blockedAccountError) ∧
    (u.is_blocked = false → 2 ≤ overdueLinkedCount s uid →
      create_reservation now uid bid s =
        .err (blockCaller s uid) overdueBlockedError ∧
      (findUser (blockCaller s uid) uid).map User.is_blocked = some true) ∧
    (u.is_blocked = false → overdueLinkedCount s uid < 2 → 3 ≤ quotaCount s uid →
      create_reservation now uid bid s = .err s limitExceededError) ∧
    (3 ≤ quotaCount s uid →
      (create_reservation now uid bid s).error?.map ApiError.status_code ≠
        some 404) := by
  have huid : u.id = uid := by simpa using List.find?_some hu
  refine ⟨fun hbt => create_user_blocked hu hbt, fun hbf hodge => ?_,
    fun hbf hod hq => create_over_quota hu hbf (by omega) hq, fun hq => ?_⟩
  · refine ⟨create_delinquent hu hbf hodge, ?_⟩
    have : findUser (blockCaller s uid) uid =
        (findUser s uid).map
          (fun x => if x.id == uid then { x with is_blocked := true } else x) :=
      findUser_mapUserById s uid uid
        (fun x => { x with is_blocked := true }) (fun x => rfl)
    rw [this, hu]
    simp [huid]
  · cases hbv : u.is_blocked with
    | true =>
        rw [create_user_blocked hu hbv]
        intro hcontra
        have := Option.some.inj hcontra
        exact absurd this (by decide)
    | false =>
        by_cases hodc : 2 ≤ overdueLinkedCount s uid
        · rw [create_delinquent hu hbv hodc]
          intro hcontra
          have := Option.some.inj hcontra
          exact absurd this (by decide)
        · rw [create_over_quota hu hbv hodc hq]
          intro hcontra
          have := Option.some.inj hcontra
          exact absurd this (by decide)

/-- C10, witness: the delinquency precedence at the concrete store. -/

theorem C10_witness :
    (findUser exC10 1 = some ⟨1, "u", false⟩) ∧
    ((⟨1, "u", false⟩ : User).is_blocked = false → 2 ≤ overdueLinkedCount exC10 1 →
      create_reservation 100 1 999 exC10 =
        .err (blockCaller exC10 1) overdueBlockedError ∧
      (findUser (blockCaller exC10 1) 1).map User.is_blocked = some true) := by
  refine ⟨by decide, ?_⟩
  exact (C10_theorem 100 1 999 exC10 ⟨1, "u", false⟩ (by decide)).2.1

/-- C8: the reconciliation sweep is idempotent — running it again with
no time elapsed reproduces the same store (in particular every
Book.status, Reservation.status and User.is_blocked). -/

theorem C8_theorem (now : Nat) (s : LibraryState) :
    (check_and_cleanup_reservations now
        (check_and_cleanup_reservations now s).1).1 =
      (check_and_cleanup_reservations now s).1 := by
  show pass3State (pass2State now
    (pass1State now (check_and_cleanup_reservations now s).1)) = _
  rw [pass1State_fix, pass2State_fix, pass3State_fix]

theorem pass3Row_id (s : LibraryState) (u : User) : (pass3Row s u).id = u.id := by
  unfold pass3Row
  split <;> rfl

/-- C7: after a sweep every user with at least 2 reservations on
currently-OVERDUE books is blocked, and create_reservation re-evaluates
the check: a not-yet-blocked delinquent user is blocked during the call
and rejected with Forbidden. -/
theorem C7_theorem (now uid bid : Nat) (s : LibraryState) (u : User)
    (hu : findUser s uid = some u) :
    (∀ u' ∈ (check_and_cleanup_reservations now s).1.users,
      2 ≤ overdueLinkedCount (check_and_cleanup_reservations now s).1 u'.id →
      u'.is_blocked = true) ∧
    (u.is_blocked = false → 2 ≤ overdueLinkedCount s uid →
      create_reservation now uid bid s =
        .err (blockCaller s uid) overdueBlockedError ∧
      (findUser (blockCaller s uid) uid).map User.is_blocked = some true) := by
  constructor
  · intro u' h' hcnt
    rw [sweep_users] at h'
    obtain ⟨u₀, hu₀, rfl⟩ := List.mem_map.mp h'
    have hcnt' : 2 ≤ overdueLinkedCount (pass2State now (pass1State now s))
        (pass3Row (pass2State now (pass1State now s)) u₀).id := hcnt
    rw [pass3Row_id] at hcnt'
    unfold pass3Row
    by_cases hc : pass3Cond (pass2State now (pass1State now s)) u₀ = true
    · rw [if_pos hc]
    · rw [if_neg hc]
      unfold pass3Cond at hc
      cases hbv : u₀.is_blocked with
      | true => rfl
      | false =>
          exfalso
          apply hc
          rw [hbv]
          simp [hcnt']
  · intro hbf hod
    refine ⟨create_delinquent hu hbf hod, ?_⟩
    have hfu : findUser (blockCaller s uid) uid =
        (findUser s uid).map
          (fun x => if x.id == uid then { x with is_blocked := true } else x) :=
      findUser_mapUserById s uid uid
        (fun x => { x with is_blocked := true }) (fun x => rfl)
    have huid : u.id = uid := by simpa using List.find?_some hu
    rw [hfu, hu]
    simp [huid]

/-- C7, witness: the concrete two-overdue store blocks user 1 at sweep
time. -/

theorem C7_witness :
    (findUser exC7 1 = some ⟨1, "u", false⟩) ∧
    (∀ u' ∈ (check_and_cleanup_reservations 100 exC7).1.users,
      2 ≤ overdueLinkedCount (check_and_cleanup_reservations 100 exC7).1 u'.id →
      u'.is_blocked = true) := by
  refine ⟨by decide, ?_⟩
  exact (C7_theorem 100 1 1 exC7 ⟨1, "u", false⟩ (by decide)).1

theorem sweepBook_id (now : Nat) (s : LibraryState) (b : Book) :
    (sweepBook now s b).id = b.id := by
  unfold sweepBook
  split
  · rfl
  · exact pass1Book_id now s b

theorem findReservation_sweep (now : Nat) (s : LibraryState) (rid : Nat) :
    findReservation (check_and_cleanup_reservations now s).1 rid =
      (findReservation s rid).map (fun x => pass2Row now (pass1Row now x)) := by
  unfold findReservation
  rw [sweep_reservations, List.find?_map]
  have hp : ((fun x : Reservation => x.id == rid) ∘
      (fun x => pass2Row now (pass1Row now x))) =
      (fun x : Reservation => x.id == rid) := by
    funext x
    simp [Function.comp, pass2Row_id, pass1Row_id]
  rw [hp]

theorem findBook_sweep (now : Nat) (s : LibraryState) (bid : Nat) :
    findBook (check_and_cleanup_reservations now s).1 bid =
      (findBook s bid).map (sweepBook now s) := by
  unfold findBook
  rw [sweep_books, List.find?_map]
  have hp : ((fun b : Book => b.id == bid) ∘ sweepBook now s) =
      (fun b : Book => b.id == bid) := by
    funext b
    simp [Function.comp, sweepBook_id]
  rw [hp]

/-- C5: in one sweep run, every CONFIRMED reservation past expires_at
becomes CANCELLED with its book AVAILABLE and one cancellation email
queued; every ACTIVE reservation past expires_at becomes EXPIRED with
its book OVERDUE; a reservation selected by neither pass is left
unchanged. -/

theorem C5_theorem (now : Nat) (s : LibraryState) (r : Reservation) (b : Book)
    (hWF : WF s) (hr : r ∈ s.reservations) (hb : findBook s r.book_id = some b)
    (hl : liveCount s r.book_id ≤ 1) :
    (r.status = ReservationStatus.CONFIRMED → expiredBefore now r = true →
      findReservation (check_and_cleanup_reservations now s).1 r.id =
        some { r with status := ReservationStatus.CANCELLED } ∧
      findBook (check_and_cleanup_reservations now s).1 r.book_id =
        some { b with status := BookStatus.AVAILABLE } ∧
      SweepEvent.cancellationEmail (emailOfUser s r.user_id)
          (titleOfBook s r.book_id) ∈
        (check_and_cleanup_reservations now s).2) ∧
    (r.status = ReservationStatus.ACTIVE → expiredBefore now r = true →
      findReservation (check_and_cleanup_reservations now s).1 r.id =
        some { r with status := ReservationStatus.EXPIRED } ∧
      findBook (check_and_cleanup_reservations now s).1 r.book_id =
        some { b with status := BookStatus.OVERDUE }) ∧
    (pass1Cond now r = false → pass2Cond now r = false →
      findReservation (check_and_cleanup_reservations now s).1 r.id = some r) := by
  have hfr : findReservation s r.id = some r :=
    findReservation_eq_of_mem hWF.2.1 hr
  have hbid : b.id = r.book_id := by simpa using List.find?_some hb
  refine ⟨?_, ?_, ?_⟩
  · intro hst hexp
    have hp1 : pass1Cond now r = true := by
      simp [pass1Cond, hexp, hst]
    have hp1b : pass1Hits now s b.id = true := by
      apply List.any_eq_true.mpr
      refine ⟨r, hr, ?_⟩
      rw [hp1]
      simp [hbid]
    have hp2b : pass2Hits now s b.id = false := by
      cases hv : pass2Hits now s b.id with
      | false => rfl
      | true =>
          exfalso
          obtain ⟨r₂, hr₂m, hr₂⟩ := List.any_eq_true.mp hv
          simp only [Bool.and_eq_true] at hr₂
          have hr₂st : r₂.status = ReservationStatus.ACTIVE := by
            have := hr₂.1
            unfold pass2Cond at this
            simp only [Bool.and_eq_true, beq_iff_eq] at this
            exact this.2
          have hr₂live : liveFor r.book_id r₂ = true := by
            have hbb : (r₂.book_id == r.book_id) = true := by
              have := hr₂.2
              rw [hbid] at this
              exact this
            simp [liveFor, hbb, hr₂st, ReservationStatus.isLive]
          have hrlive : liveFor r.book_id r = true := by
            simp [liveFor, hst, ReservationStatus.isLive]
          have hne : r ≠ r₂ := by
            intro hcc
            rw [hcc, hr₂st] at hst
            exact ReservationStatus.noConfusion hst
          have := two_le_countP hr hr₂m hne hrlive hr₂live
          unfold liveCount at hl
          omega
    have hrow : pass2Row now (pass1Row now r) =
        { r with status := ReservationStatus.CANCELLED } := by
      have h1 : pass1Row now r = { r with status := ReservationStatus.CANCELLED } := by
        unfold pass1Row
        rw [if_pos hp1]
      rw [h1]
      apply pass2Row_fix
      have hbeq : (ReservationStatus.CANCELLED == ReservationStatus.ACTIVE) = false :=
        rfl
      simp [pass2Cond, expiredBefore, hbeq]
    refine ⟨?_, ?_, ?_⟩
    · rw [findReservation_sweep, hfr]
      simp [hrow]
    · rw [findBook_sweep, hb]
      have hsb : sweepBook now s b = { b with status := BookStatus.AVAILABLE } := by
        unfold sweepBook
        rw [if_neg (by simp [hp2b])]
        unfold pass1Book
        rw [if_pos hp1b]
      simp [hsb]
    · show _ ∈ pass1Events now s ++ pass3Events _
      apply List.mem_append_left
      unfold pass1Events
      apply List.mem_map.mpr
      exact ⟨r, List.mem_filter.mpr ⟨hr, hp1⟩, rfl⟩
  · intro hst hexp
    have hp2 : pass2Cond now r = true := by
      simp [pass2Cond, hexp, hst]
    have hp2b : pass2Hits now s b.id = true := by
      apply List.any_eq_true.mpr
      refine ⟨r, hr, ?_⟩
      rw [hp2]
      simp [hbid]
    have hp1 : pass1Cond now r = false := by
      have hbeq : (ReservationStatus.ACTIVE == ReservationStatus.CONFIRMED) = false :=
        rfl
      simp [pass1Cond, hst, hbeq]
    have hrow : pass2Row now (pass1Row now r) =
        { r with status := ReservationStatus.EXPIRED } := by
      rw [pass1Row_fix hp1]
      unfold pass2Row
      rw [if_pos hp2]
    refine ⟨?_, ?_⟩
    · rw [findReservation_sweep, hfr]
      simp [hrow]
    · rw [findBook_sweep, hb]
      have hsb : sweepBook now s b = { b with status := BookStatus.OVERDUE } := by
        unfold sweepBook
        rw [if_pos hp2b]
      simp [hsb]
  · intro hp1 hp2
    rw [findReservation_sweep, hfr]
    simp [pass1Row_fix hp1, pass2Row_fix hp2]

/-- C5, witness: the concrete expired-CONFIRMED store is cancelled and
freed with one email queued. -/

theorem C5_witness :
    (WF exC3 ∧
      (⟨1, 1, 1, ReservationStatus.CONFIRMED, some 50⟩ : Reservation) ∈
        exC3.reservations ∧
      findBook exC3 1 = some ⟨1, "b", BookStatus.RESERVED⟩ ∧
      liveCount exC3 1 ≤ 1 ∧
      expiredBefore 100 ⟨1, 1, 1, ReservationStatus.CONFIRMED, some 50⟩ = true) ∧
    (findReservation (check_and_cleanup_reservations 100 exC3).1 1 =
        some ⟨1, 1, 1, ReservationStatus.CANCELLED, some 50⟩ ∧
      findBook (check_and_cleanup_reservations 100 exC3).1 1 =
        some ⟨1, "b", BookStatus.AVAILABLE⟩ ∧
      SweepEvent.cancellationEmail (emailOfUser exC3 1) (titleOfBook exC3 1) ∈
        (check_and_cleanup_reservations 100 exC3).2) := by
  refine ⟨⟨by decide, by decide, by decide, by decide, by decide⟩, ?_⟩
  exact (C5_theorem 100 exC3 ⟨1, 1, 1, ReservationStatus.CONFIRMED, some 50⟩
    ⟨1, "b", BookStatus.RESERVED⟩ (by decide) (by decide) (by decide) (by decide)).1
    rfl rfl

/-- C2, counterexample, both directions of the claimed equivalence: the
overdue sweep leaves a book OVERDUE (not AVAILABLE) with zero live
reservations, and declining a stale COMPLETED reservation makes its book
AVAILABLE while another reservation on it is still PENDING (live). -/
theorem C2_counterexample :
    ((findBook (check_and_cleanup_reservations 100 exC2a).1 1).map Book.status =
        some BookStatus.OVERDUE ∧
      liveCount (check_and_cleanup_reservations 100 exC2a).1 1 = 0) ∧
    ((decline_reservation_by_librarian 1 exC2b).isOk = true ∧
      (findBook (decline_reservation_by_librarian 1 exC2b).state 1).map
        Book.status = some BookStatus.AVAILABLE ∧
      liveCount (decline_reservation_by_librarian 1 exC2b).state 1 = 1) := by
  exact ⟨⟨by decide, by decide⟩, ⟨by decide, by decide, by decide⟩⟩

/-- C2 (amended): the coupling that every operation actually maintains
is `Coupled`: each book has at most one live reservation, and its status
is AVAILABLE or OVERDUE exactly when it has no live reservation
(equivalently RESERVED or CHECKED_OUT exactly when it has one).
createReservation, librarian confirm, checkout, decline-by-user and the
sweep preserve it unconditionally; decline-by-librarian preserves it
provided the target reservation is live or its book is AVAILABLE, and
returnBook provided the target is live or its book is OVERDUE — without
these provisos the two librarian endpoints can break even the
AVAILABLE-implies-no-live direction, and after the overdue pass a book
is OVERDUE rather than AVAILABLE, so the claimed biconditional with
AVAILABLE alone does not hold. -/

theorem C2_theorem (now rid uid bid : Nat) (s : LibraryState)
    (hWF : WF s) (hC : Coupled s) :
    Coupled (create_reservation now uid bid s).state ∧
    Coupled (confirm_reservation_by_librarian now rid s).state ∧
    Coupled (confirm_book_checkout_by_librarian now rid s).state ∧
    Coupled (decline_reservation_user rid uid s).state ∧
    Coupled (check_and_cleanup_reservations now s).1 ∧
    ((∀ r, findReservation s rid = some r →
        r.status.isLive = true ∨
          (findBook s r.book_id).map Book.status = some BookStatus.AVAILABLE) →
      Coupled (decline_reservation_by_librarian rid s).state) ∧
    ((∀ r, findReservation s rid = some r →
        r.status.isLive = true ∨
          (findBook s r.book_id).map Book.status = some BookStatus.OVERDUE) →
      Coupled (confirm_book_return_by_librarian rid s).state) :=
  ⟨coupled_create now uid bid hWF hC,
   coupled_confirm now rid hWF hC,
   coupled_checkout now rid hWF hC,
   coupled_decline_user rid uid hWF hC,
   coupled_sweep now hWF hC,
   fun hprov => coupled_decline_librarian rid hWF hC hprov,
   fun hprov => coupled_return rid hWF hC hprov⟩

/-- C2, witness: the coupling is preserved on the concrete one-PENDING
store by all seven operations (the provisos hold there: the target
reservation is live). -/

theorem C2_witness :
    (WF exPending ∧ Coupled exPending) ∧
    (Coupled (create_reservation 100 1 1 exPending).state ∧
      Coupled (confirm_reservation_by_librarian 100 1 exPending).state ∧
      Coupled (confirm_book_checkout_by_librarian 100 1 exPending).state ∧
      Coupled (decline_reservation_user 1 1 exPending).state ∧
      Coupled (check_and_cleanup_reservations 100 exPending).1 ∧
      Coupled (decline_reservation_by_librarian 1 exPending).state ∧
      Coupled (confirm_book_return_by_librarian 1 exPending).state) := by
  have hprov1 : ∀ r, findReservation exPending 1 = some r →
      r.status.isLive = true ∨
        (findBook exPending r.book_id).map Book.status =
          some BookStatus.AVAILABLE := by
    intro r hr
    have : (some (⟨1, 1, 1, ReservationStatus.PENDING, some 0⟩ : Reservation)) =
        some r := by rw [← hr]; rfl
    rw [← Option.some.inj this]
    left
    rfl
  have hprov2 : ∀ r, findReservation exPending 1 = some r →
      r.status.isLive = true ∨
        (findBook exPending r.book_id).map Book.status =
          some BookStatus.OVERDUE := by
    intro r hr
    have : (some (⟨1, 1, 1, ReservationStatus.PENDING, some 0⟩ : Reservation)) =
        some r := by rw [← hr]; rfl
    rw [← Option.some.inj this]
    left
    rfl
  have h := C2_theorem 100 1 1 1 exPending (by decide) (by decide)
  exact ⟨⟨by decide, by decide⟩,
    ⟨h.1, h.2.1, h.2.2.1, h.2.2.2.1, h.2.2.2.2.1,
      h.2.2.2.2.2.1 hprov1, h.2.2.2.2.2.2 hprov2⟩⟩

end LibraryProject

